import Mathlib

/-!
# Vehicle controller main loops: RC validation, pulse mapping and scheduling

Shallow embeddings of `rover_main.c` (namespace `Rover`), of the main loop of
`main_gnc_boat.c` (namespace `Boat`) and of `range_at_angle_mode` of `range_at_angle.c`
(namespace `RangeAtAngle`); the definitions of the three come first, the theorems follow.

## The rover pass-through controller

A shallow embedding of `rover_main.c` (Rover/Controller/Rover_passthrough.X).
C `int` values are modelled by `Int`: for receiver counts and pulse widths of the sizes
that occur no intermediate value leaves the 32-bit range (`hash_check_in_int_range`,
`calc_pw_in_int_range`). The `uint32_t` millisecond counters are modelled by `Nat` with
explicit reduction modulo `2^32`. Floating-point sensor and attitude data stay with the
collaborators that own them; a run records the calls made to them.
-/

namespace Rover

/-! ## Configuration constants -/

/-- Constants of `RC_RX.h` and `RC_servo.h`, which `rover_main.c` uses but does not
define: receiver counts (minimum, mid point, maximum) and servo pulse widths in
microseconds (minimum, centre, maximum). -/
structure Config where
  RC_RX_MIN_COUNTS : Int
  RC_RX_MID_COUNTS : Int
  RC_RX_MAX_COUNTS : Int
  RC_SERVO_MIN_PULSE : Int
  RC_SERVO_CENTER_PULSE : Int
  RC_SERVO_MAX_PULSE : Int
deriving Repr, DecidableEq

/-- The `#define HEARTBEAT_PERIOD 1000` of `rover_main.c` (milliseconds). -/
def HEARTBEAT_PERIOD : Nat := 1000

/-- The `#define CONTROL_PERIOD 20` of `rover_main.c` (milliseconds). -/
def CONTROL_PERIOD : Nat := 20

/-! ## Enumerations -/

/-- Index of the throttle channel (`enum RC_channels`). -/
def THR : Nat := 0
/-- Index of the aileron channel. -/
def AIL : Nat := 1
/-- Index of the elevator channel. -/
def ELE : Nat := 2
/-- Index of the rudder channel. -/
def RUD : Nat := 3
/-- Index of the hash (checksum) channel. -/
def HASH : Nat := 4
/-- Index of switch A. -/
def SWITCH_A : Nat := 5
/-- Index of switch B. -/
def SWITCH_B : Nat := 6
/-- Index of switch C. -/
def SWITCH_C : Nat := 7
/-- Index of switch D. -/
def SWITCH_D : Nat := 8
/-- Index of switch E. -/
def SWITCH_E : Nat := 9

/-- The `enum motors` of `rover_main.c`. -/
inductive motors where
  | MOTOR_1
  | MOTOR_2
  | MOTOR_3
  | MOTOR_4
deriving Repr, DecidableEq

/-- The RC channel buffer `RC_channels[CHANNELS]`: channel index to channel value. -/
abbrev ChannelBuffer := Nat → Int

/-! ## Calls to collaborators

The functions of the file act on the outside world only through calls to the
driver layer and `printf`; a run is described by the list of those calls, in order. -/

/-- A call made by `rover_main.c` to a collaborator. -/
inductive Call where
  /-- The call `RC_servo_set_pulse(pulse, motor)`. -/
  | RC_servo_set_pulse (pulse : Int) (motor : motors)
  /-- The diagnostic `printf` of `set_control_output` with its seven arguments. -/
  | printf_RC (args : List Int)
  /-- The call `IMU_get_raw_data(&IMU_raw)` of `check_IMU_events`. -/
  | IMU_get_raw_data
  /-- The call `RCRX_get_cmd(RC_channels)` of `check_RC_events`. -/
  | RCRX_get_cmd
  /-- The call `publish_RC_signals_raw()`. -/
  | publish_RC_signals_raw
  /-- The call `publish_IMU_data(data_type)`. -/
  | publish_IMU_data (data_type : Nat)
  /-- The call `IMU_start_data_acq()`. -/
  | IMU_start_data_acq
  /-- The report `printf("IMU error count %d")`. -/
  | printf_IMU_error (count : Nat)
  /-- The call `IMU_get_norm_data(&IMU_scaled)`. -/
  | IMU_get_norm_data
  /-- The call `AHRS_update(acc_cal, mag_cal, gyro_cal, dt, euler)`. -/
  | AHRS_update
  /-- The `printf` of the three Euler angles. -/
  | printf_euler
deriving Repr, DecidableEq

/-! ## `calc_pw` and `set_control_output` -/

/-- The function `calc_pw(int raw_counts)`: the product is formed first, then divided by
the count range with the truncating division of C, then the centre pulse is added. -/
def calc_pw (cfg : Config) (raw_counts : Int) : Int :=
  let denominator : Int := cfg.RC_RX_MAX_COUNTS - cfg.RC_RX_MIN_COUNTS
  let numerator : Int := cfg.RC_SERVO_MAX_PULSE - cfg.RC_SERVO_MIN_PULSE
  let pulse_width : Int := (raw_counts - cfg.RC_RX_MID_COUNTS) * numerator
  let pulse_width : Int := Int.tdiv pulse_width denominator
  let pulse_width : Int := pulse_width + cfg.RC_SERVO_CENTER_PULSE
  pulse_width

/-- The C library function `abs` on `int`. -/
def c_abs (x : Int) : Int := if x < 0 then -x else x

/-- The value `hash_check` computed by `set_control_output`: the four primary channels,
each shifted right by two bits, added up. -/
def hash_check (RC_channels : ChannelBuffer) : Int :=
  (RC_channels THR >>> (2 : Nat)) + (RC_channels AIL >>> (2 : Nat))
    + (RC_channels ELE >>> (2 : Nat)) + (RC_channels RUD >>> (2 : Nat))

/-- The function `set_control_output()`, reading the global buffer `RC_channels`; the
result is the list of calls it makes. The local `INTOL` only feeds the `printf`. -/
def set_control_output (cfg : Config) (RC_channels : ChannelBuffer) : List Call :=
  let tol : Int := 10
  let hash : Int := RC_channels HASH
  let hash_check : Int := hash_check RC_channels
  if c_abs (hash_check - hash) ≤ tol then
    [ Call.RC_servo_set_pulse (calc_pw cfg (RC_channels ELE)) motors.MOTOR_1,
      Call.RC_servo_set_pulse (calc_pw cfg (RC_channels ELE)) motors.MOTOR_2,
      Call.RC_servo_set_pulse (calc_pw cfg (RC_channels RUD)) motors.MOTOR_3 ]
  else
    [ Call.printf_RC [RC_channels THR, RC_channels AIL, RC_channels ELE, RC_channels RUD,
        hash, hash_check, 0] ]

/-- A frame with the given five leading channels and zero in every other channel. -/
def frame (thr ail ele rud hash : Int) : ChannelBuffer := fun i =>
  if i = THR then thr else if i = AIL then ail else if i = ELE then ele
  else if i = RUD then rud else if i = HASH then hash else 0

/-- The receiver and servo constants 172/992/1811 counts and 1000/1500/2000 microseconds. -/
def exampleConfig : Config :=
  { RC_RX_MIN_COUNTS := 172, RC_RX_MID_COUNTS := 992, RC_RX_MAX_COUNTS := 1811,
    RC_SERVO_MIN_PULSE := 1000, RC_SERVO_CENTER_PULSE := 1500, RC_SERVO_MAX_PULSE := 2000 }

/-- Constants that are proportional about the mid point: counts 0/1000/2000 and pulses
1000/1500/2000 microseconds. -/
def proportionalConfig : Config :=
  { RC_RX_MIN_COUNTS := 0, RC_RX_MID_COUNTS := 1000, RC_RX_MAX_COUNTS := 2000,
    RC_SERVO_MIN_PULSE := 1000, RC_SERVO_CENTER_PULSE := 1500, RC_SERVO_MAX_PULSE := 2000 }

/-- The file-scope array as statically initialised, `RCRX_channel_buffer
RC_channels[CHANNELS] = {RC_RX_MID_COUNTS};`: the initialiser list has one element, which
goes to channel 0, and C sets the elements without an initialiser to zero. -/
def RC_channels_initial (cfg : Config) : ChannelBuffer := fun i =>
  if i = 0 then cfg.RC_RX_MID_COUNTS else 0

/-! ## Actuator state -/

/-- The effect of a run on the actuator state kept by the servo driver. The driver function
`RC_servo_set_pulse` lives in `RC_servo.c`, outside this file, and is a parameter; no other
call of `rover_main.c` reaches the actuators. -/
def run_actuators {σ : Type} (RC_servo_set_pulse : Int → motors → σ → σ) :
    List Call → σ → σ
  | [], s => s
  | Call.RC_servo_set_pulse pulse motor :: cs, s =>
      run_actuators RC_servo_set_pulse cs (RC_servo_set_pulse pulse motor s)
  | _ :: cs, s => run_actuators RC_servo_set_pulse cs s

/-- Modelled from the spec: the driver primitive `actuator_set_pulse(channel, pulse_us)`,
whose source (`RC_servo.c`) is not at hand, as a plain store of the pulse width commanded
for a motor. -/
def store_pulse (pulse : Int) (motor : motors) (pw : motors → Int) : motors → Int :=
  fun m => if m = motor then pulse else pw m

/-! ## The main loop -/

/-- Subtraction of two `uint32_t` values, as in `cur_time - control_start_time`: the
difference modulo `2^32`. -/
def u32_sub (a b : Nat) : Nat := (a % 2 ^ 32 + (2 ^ 32 - b % 2 ^ 32)) % 2 ^ 32

/-- The local `uint8_t error_report = 50` of `main`. -/
def error_report : Nat := 50

/-- The constant `RAW` (`#define RAW 1`). -/
def RAW : Nat := 1

/-- What the collaborators return during one iteration of the `while (1)` loop of `main`,
in the order in which the loop asks. -/
structure LoopEnv where
  /-- Whether `IMU_is_data_ready()` is `TRUE` inside `check_IMU_events`. -/
  imu_ready_events : Bool
  /-- The result of `RCRX_new_cmd_avail()` inside `check_RC_events`. -/
  rc_new_cmd_avail : Bool
  /-- The buffer contents left by `RCRX_get_cmd(RC_channels)`. -/
  rc_cmd : ChannelBuffer
  /-- The reading `Sys_timer_get_msec()` assigned to `cur_time`. -/
  msec : Nat
  /-- Whether `IMU_start_data_acq()` returns `ERROR`. -/
  imu_acq_error : Bool
  /-- The reading `Sys_timer_get_msec()` assigned to `IMU_update_start`. -/
  msec_update_start : Nat
  /-- Whether `IMU_is_data_ready()` is `TRUE` in the loop body. -/
  imu_ready_main : Bool
  /-- The reading `Sys_timer_get_msec()` assigned to `IMU_update_end`. -/
  msec_update_end : Nat

/-- The variables of `rover_main.c` that the main loop reads and writes (the floating-point
sensor and attitude data are left to the collaborators that own them). -/
structure LoopState where
  RC_channels : ChannelBuffer
  pub_RC_signals : Bool
  pub_IMU : Bool
  cur_time : Nat
  control_start_time : Nat
  heartbeat_start_time : Nat
  /-- Whether `IMU_state == ERROR`. -/
  IMU_state_is_ERROR : Bool
  IMU_error : Nat
  IMU_update_start : Nat
  IMU_update_end : Nat

/-- The function `check_IMU_events()`. -/
def check_IMU_events (env : LoopEnv) : List Call :=
  if env.imu_ready_events then [Call.IMU_get_raw_data] else []

/-- The function `check_RC_events()`: a new command, when available, replaces the buffer. -/
def check_RC_events (env : LoopEnv) (s : LoopState) : LoopState × List Call :=
  if env.rc_new_cmd_avail then
    ({ s with RC_channels := env.rc_cmd }, [Call.RCRX_get_cmd])
  else
    (s, [])

/-- The body of `if (cur_time - control_start_time >= CONTROL_PERIOD)` in the main loop. -/
def control_block (cfg : Config) (env : LoopEnv) (s : LoopState) : LoopState × List Call :=
  let s := { s with control_start_time := s.cur_time }
  let calls := set_control_output cfg s.RC_channels
  let calls := if s.pub_RC_signals then calls ++ [Call.publish_RC_signals_raw] else calls
  let calls := if s.pub_IMU then calls ++ [Call.publish_IMU_data RAW] else calls
  let s := { s with IMU_state_is_ERROR := env.imu_acq_error }
  let calls := calls ++ [Call.IMU_start_data_acq]
  let s := { s with IMU_update_start := env.msec_update_start }
  if s.IMU_state_is_ERROR then
    let s := { s with IMU_error := (s.IMU_error + 1) % 2 ^ 32 }
    if s.IMU_error % error_report = 0 then
      (s, calls ++ [Call.printf_IMU_error s.IMU_error])
    else
      (s, calls)
  else
    (s, calls)

/-- The body of `if (IMU_is_data_ready() == TRUE)` in the main loop. -/
def imu_ready_block (env : LoopEnv) (s : LoopState) : LoopState × List Call :=
  let s := { s with IMU_update_end := env.msec_update_end }
  let calls := [Call.IMU_get_norm_data, Call.AHRS_update, Call.printf_euler]
  if HEARTBEAT_PERIOD ≤ u32_sub s.cur_time s.heartbeat_start_time then
    ({ s with heartbeat_start_time := s.cur_time }, calls)
  else
    (s, calls)

/-- The first three statements of the loop body: `check_IMU_events()`, `check_RC_events()`
and `cur_time = Sys_timer_get_msec()`. -/
def poll_events (env : LoopEnv) (s : LoopState) : LoopState × List Call :=
  let calls := check_IMU_events env
  let r := check_RC_events env s
  ({ r.1 with cur_time := env.msec }, calls ++ r.2)

/-- The statement `if (cur_time - control_start_time >= CONTROL_PERIOD) { ... }` of the loop
body, the subtraction being that of `uint32_t`. -/
def control_task (cfg : Config) (env : LoopEnv) (s : LoopState) : LoopState × List Call :=
  if CONTROL_PERIOD ≤ u32_sub s.cur_time s.control_start_time then
    control_block cfg env s
  else
    (s, [])

/-- The statement `if (IMU_is_data_ready() == TRUE) { ... }` of the loop body. -/
def attitude_task (env : LoopEnv) (s : LoopState) : LoopState × List Call :=
  if env.imu_ready_main then imu_ready_block env s else (s, [])

/-- One iteration of the `while (1)` loop of `main`: the new state and the calls made. -/
def main_loop_iteration (cfg : Config) (env : LoopEnv) (s : LoopState) :
    LoopState × List Call :=
  let r1 := poll_events env s
  let r2 := control_task cfg env r1.1
  let r3 := attitude_task env r2.1
  (r3.1, r1.2 ++ r2.2 ++ r3.2)

/-- A loop state for examples: the buffer holds the frame of four channels at 1000 with
hash 996, and the control task last ran 6 ms before the millisecond counter wraps. -/
def exampleState : LoopState :=
  { RC_channels := frame 1000 1000 1000 1000 996, pub_RC_signals := false, pub_IMU := false,
    cur_time := 4294967290, control_start_time := 4294967290, heartbeat_start_time := 4294967290,
    IMU_state_is_ERROR := false, IMU_error := 0, IMU_update_start := 0, IMU_update_end := 0 }

/-- An iteration for examples in which every clock reading is `t`, no IMU data and no RC
command are pending, and the IMU acquisition starts without error. -/
def exampleEnv (t : Nat) : LoopEnv :=
  { imu_ready_events := false, rc_new_cmd_avail := false, rc_cmd := frame 0 0 0 0 0, msec := t,
    imu_acq_error := false, msec_update_start := t, imu_ready_main := false,
    msec_update_end := t }

/-- As `exampleEnv`, with IMU data ready in the loop body. -/
def exampleEnvReady (t : Nat) : LoopEnv := { exampleEnv t with imu_ready_main := true }

/-- A run forwards a pulse to the actuators when it contains a call of
`RC_servo_set_pulse`. -/
def forwards_pulse (calls : List Call) : Prop :=
  ∃ pulse motor, Call.RC_servo_set_pulse pulse motor ∈ calls

/-- The control task ran during an iteration: among the calls of the iteration are those
of `set_control_output` on the buffer, as one block, followed later by the call of
`IMU_start_data_acq`. -/
def control_task_ran (cfg : Config) (RC_channels : ChannelBuffer) (calls : List Call) : Prop :=
  ∃ pre post, calls = pre ++ set_control_output cfg RC_channels ++ post
    ∧ Call.IMU_start_data_acq ∈ post

/-! ## Runs of the main loop -/

/-- The state at the start of iteration `n` of the `while (1)` loop of `main`, when the
collaborators answer `env k` during iteration `k` and the loop is entered in state `s`. -/
def main_loop_state (cfg : Config) (env : Nat → LoopEnv) (s : LoopState) : Nat → LoopState
  | 0 => s
  | n + 1 => (main_loop_iteration cfg (env n) (main_loop_state cfg env s n)).1

/-- The calls made during iteration `n` of the `while (1)` loop of `main`. -/
def main_loop_calls (cfg : Config) (env : Nat → LoopEnv) (s : LoopState) (n : Nat) :
    List Call :=
  (main_loop_iteration cfg (env n) (main_loop_state cfg env s n)).2

/-- The control task fires in iteration `n`: the iteration starts an IMU acquisition, which
only the control block does. -/
def control_fires (cfg : Config) (env : Nat → LoopEnv) (s : LoopState) (n : Nat) : Prop :=
  Call.IMU_start_data_acq ∈ main_loop_calls cfg env s n

/-- Iterations for examples whose clock reading in iteration `n` is `readings n` and which
are otherwise as `exampleEnv`. -/
def clockEnv (readings : Nat → Nat) : Nat → LoopEnv := fun n => exampleEnv (readings n)

/-- Clock readings 14, 40, 14: the third is the first again, as after a full turn of the
32-bit millisecond counter. -/
def wrappedReadings : Nat → Nat := fun n => if n = 1 then 40 else 14

/-- Clock readings of a counter that starts at `t0` and advances by `d` per iteration,
modulo `2^32`. -/
def steadyReadings (t0 d : Nat) : Nat → Nat := fun n => (t0 + n * d) % 2 ^ 32

/-! ## Start-up: waiting for the RC receiver -/

/-- The local `uint32_t RC_timeout = 1000` of `main`. -/
def RC_timeout : Nat := 1000

/-- The loop `while (cur_time - start_time < RC_timeout) { if (RCRX_new_cmd_avail())
{ RC_system_online = TRUE; break; } }` of `main`. The body assigns neither `cur_time` nor
`start_time`. `avail k` is the answer of the call number `k` of `RCRX_new_cmd_avail`, and
`fuel` bounds the number of iterations that are followed: the result is `some b` when the
loop is left with `RC_system_online` equal to `b`, and `none` when it is still running. -/
def rc_wait_loop (cur_time start_time : Nat) (RC_system_online : Bool) (avail : Nat → Bool) :
    Nat → Nat → Option Bool
  | 0, _ => none
  | fuel + 1, k =>
    if u32_sub cur_time start_time < RC_timeout then
      if avail k then some true
      else rc_wait_loop cur_time start_time RC_system_online avail fuel (k + 1)
    else some RC_system_online

/-- The message sent over the radio after the wait. -/
inductive RadioMessage where
  /-- The text `RC system failed to connect!`. -/
  | RC_system_failed_to_connect
  /-- The text `RC system online.`. -/
  | RC_system_online
deriving Repr, DecidableEq

/-- The part of `main` from `cur_time = Sys_timer_get_msec(); start_time = cur_time;` to the
choice of the message: `msec` is the clock reading, and `RC_system_online` starts as `FALSE`.
The result is the value of `RC_system_online` with the message, or `none` when the wait is
still running after `fuel` iterations. -/
def rc_startup (msec : Nat) (avail : Nat → Bool) (fuel : Nat) :
    Option (Bool × RadioMessage) :=
  let cur_time := msec
  let start_time := cur_time
  match rc_wait_loop cur_time start_time false avail fuel 0 with
  | none => none
  | some RC_system_online =>
    if RC_system_online = false then
      some (RC_system_online, RadioMessage.RC_system_failed_to_connect)
    else
      some (RC_system_online, RadioMessage.RC_system_online)

end Rover

/-! # The GNC boat main loop

A shallow embedding of the `while (1)` loop of `main_gnc_boat.c` (lib/GNC_Boat.X). The
event checks, the publishers and `set_control_output` of this program live in other files;
the loop is described by the variables of `main` and the calls it makes. -/

namespace Boat

/-- Constants that `main_gnc_boat.c` takes from headers and from the build: the two MAVLink
mode values that the loop names, and whether `USB_DEBUG` is defined. -/
structure Config where
  MAV_MODE_MANUAL_ARMED : Nat
  MAV_MODE_AUTO_ARMED : Nat
  /-- Whether the program is compiled with `USB_DEBUG` defined. -/
  USB_DEBUG : Bool
deriving Repr, DecidableEq

/-- The `#define HEARTBEAT_PERIOD 1000` of `main_gnc_boat.c` (milliseconds). -/
def HEARTBEAT_PERIOD : Nat := 1000

/-- The `#define GPS_PERIOD 1000` of `main_gnc_boat.c` (milliseconds). -/
def GPS_PERIOD : Nat := 1000

/-- The `#define CONTROL_PERIOD 20` of `main_gnc_boat.c` (milliseconds). -/
def CONTROL_PERIOD : Nat := 20

/-- The constant `SCALED` (`#define SCALED 2`). -/
def SCALED : Nat := 2

/-- The local `uint8_t error_report = 50` of `main`. -/
def error_report : Nat := 50

/-- A call made by `main` of `main_gnc_boat.c` to a collaborator. -/
inductive Call where
  /-- The call `pid_controller_init(&trajectory_tracker, ...)`, made once before the loop. -/
  | pid_controller_init
  /-- The call `check_IMU_events(data_type)`. -/
  | check_IMU_events (data_type : Nat)
  /-- The call `check_mavlink_serial_events()`. -/
  | check_mavlink_serial_events
  /-- The call `check_RC_events()`. -/
  | check_RC_events
  /-- The call `check_GPS_events()`. -/
  | check_GPS_events
  /-- The call `check_mavlink_mode()`. -/
  | check_mavlink_mode
  /-- The call `set_control_output()`. -/
  | set_control_output
  /-- The call `IMU_start_data_acq()`. -/
  | IMU_start_data_acq
  /-- The report `printf("IMU error count %d")`, compiled under `USB_DEBUG`. -/
  | printf_IMU_error (count : Nat)
  /-- The call `publish_RC_signals_raw()`. -/
  | publish_RC_signals_raw
  /-- The call `publish_IMU_data(data_type)`. -/
  | publish_IMU_data (data_type : Nat)
  /-- The call `publish_GPS()`. -/
  | publish_GPS
  /-- The call `publish_heartbeat()`. -/
  | publish_heartbeat
  /-- The statement `LATAbits.LATA3 ^= 1`, which toggles LED4. -/
  | toggle_LATA3
deriving Repr, DecidableEq

/-- What the collaborators return during one iteration of the loop. -/
structure LoopEnv where
  /-- The reading `Sys_timer_get_msec()` assigned to `cur_time`. -/
  msec : Nat
  /-- The mode returned by `check_mavlink_mode()`. -/
  mode : Nat
  /-- Whether `IMU_start_data_acq()` returns `ERROR`. -/
  imu_acq_error : Bool

/-- The variables of `main` that the loop reads and writes; `τ` is the type of the
controller state `pid_controller_t`, declared in a header that is not at hand. -/
structure LoopState (τ : Type) where
  cur_time : Nat
  gps_start_time : Nat
  control_start_time : Nat
  heartbeat_start_time : Nat
  /-- Whether `IMU_state == ERROR`. -/
  IMU_state_is_ERROR : Bool
  IMU_error : Nat
  current_mode : Nat
  last_mode : Nat
  trajectory_tracker : τ
  control_loop_count : Nat

/-- The state in which the loop is entered: the timers and counters are zero, both mode
variables hold `MAV_MODE_MANUAL_ARMED`, and `trajectory_tracker` is as
`pid_controller_init` left it. -/
def loop_entry_state {τ : Type} (cfg : Config) (tracker : τ) (imu_init_error : Bool) :
    LoopState τ :=
  { cur_time := 0, gps_start_time := 0, control_start_time := 0, heartbeat_start_time := 0,
    IMU_state_is_ERROR := imu_init_error, IMU_error := 0,
    current_mode := cfg.MAV_MODE_MANUAL_ARMED, last_mode := cfg.MAV_MODE_MANUAL_ARMED,
    trajectory_tracker := tracker, control_loop_count := 0 }

/-- The statements of the loop body from `cur_time = Sys_timer_get_msec()` to
`current_mode = check_mavlink_mode()`; the block that compared `current_mode` with
`last_mode` is commented out in the source. -/
def poll_events {τ : Type} (env : LoopEnv) (s : LoopState τ) : LoopState τ × List Call :=
  let s := { s with cur_time := env.msec }
  let calls := [Call.check_IMU_events SCALED, Call.check_mavlink_serial_events,
    Call.check_RC_events, Call.check_GPS_events, Call.check_mavlink_mode]
  ({ s with current_mode := env.mode }, calls)

/-- The statement `switch (current_mode)`: both cases consist of `break`. -/
def state_machine {τ : Type} (cfg : Config) (s : LoopState τ) : LoopState τ × List Call :=
  if s.current_mode = cfg.MAV_MODE_MANUAL_ARMED then (s, [])
  else if s.current_mode = cfg.MAV_MODE_AUTO_ARMED then (s, [])
  else (s, [])

/-- The body of `if ((cur_time - control_start_time) > CONTROL_PERIOD)`; the controller
update and the servo command in it are commented out in the source. -/
def control_block {τ : Type} (cfg : Config) (env : LoopEnv) (s : LoopState τ) :
    LoopState τ × List Call :=
  let s := { s with control_start_time := s.cur_time }
  let calls := [Call.set_control_output]
  let s := { s with IMU_state_is_ERROR := env.imu_acq_error }
  let calls := calls ++ [Call.IMU_start_data_acq]
  let r : LoopState τ × List Call :=
    if s.IMU_state_is_ERROR then
      let s := { s with IMU_error := (s.IMU_error + 1) % 2 ^ 32 }
      if s.IMU_error % error_report = 0 then
        if cfg.USB_DEBUG then (s, calls ++ [Call.printf_IMU_error s.IMU_error])
        else (s, calls)
      else
        (s, calls)
    else
      (s, calls)
  let s := r.1
  let calls := r.2 ++ [Call.publish_RC_signals_raw, Call.publish_IMU_data SCALED]
  ({ s with control_loop_count := (s.control_loop_count + 1) % 2 ^ 32 }, calls)

/-- The statement `if ((cur_time - control_start_time) > CONTROL_PERIOD) { ... }`, the
subtraction being that of `uint32_t`. -/
def control_task {τ : Type} (cfg : Config) (env : LoopEnv) (s : LoopState τ) :
    LoopState τ × List Call :=
  if CONTROL_PERIOD < Rover.u32_sub s.cur_time s.control_start_time then
    control_block cfg env s
  else
    (s, [])

/-- The statement `if (cur_time - gps_start_time >= GPS_PERIOD) { ... }`. -/
def gps_task {τ : Type} (s : LoopState τ) : LoopState τ × List Call :=
  if GPS_PERIOD ≤ Rover.u32_sub s.cur_time s.gps_start_time then
    ({ s with gps_start_time := s.cur_time }, [Call.publish_GPS])
  else
    (s, [])

/-- The statement `if (cur_time - heartbeat_start_time >= HEARTBEAT_PERIOD) { ... }`. -/
def heartbeat_task {τ : Type} (s : LoopState τ) : LoopState τ × List Call :=
  if HEARTBEAT_PERIOD ≤ Rover.u32_sub s.cur_time s.heartbeat_start_time then
    ({ s with heartbeat_start_time := s.cur_time },
      [Call.publish_heartbeat, Call.toggle_LATA3])
  else
    (s, [])

/-- One iteration of the `while (1)` loop of `main`: the new state and the calls made. -/
def main_loop_iteration {τ : Type} (cfg : Config) (env : LoopEnv) (s : LoopState τ) :
    LoopState τ × List Call :=
  let r1 := poll_events env s
  let r2 := state_machine cfg r1.1
  let r3 := control_task cfg env r2.1
  let r4 := gps_task r3.1
  let r5 := heartbeat_task r4.1
  (r5.1, r1.2 ++ r2.2 ++ r3.2 ++ r4.2 ++ r5.2)

/-- The state at the start of iteration `n` of the loop, when the collaborators answer
`env k` during iteration `k` and the loop is entered in state `s`. -/
def main_loop_state {τ : Type} (cfg : Config) (env : Nat → LoopEnv) (s : LoopState τ) :
    Nat → LoopState τ
  | 0 => s
  | n + 1 => (main_loop_iteration cfg (env n) (main_loop_state cfg env s n)).1

/-- The MAVLink values 192 and 220 of the two modes, with `USB_DEBUG` not defined. -/
def exampleConfig : Config :=
  { MAV_MODE_MANUAL_ARMED := 192, MAV_MODE_AUTO_ARMED := 220, USB_DEBUG := false }

/-- An iteration for examples: clock reading `t`, mode `mode` read, IMU acquisition started
without error. -/
def exampleEnv (t mode : Nat) : LoopEnv := { msec := t, mode := mode, imu_acq_error := false }

/-- An iteration for examples in which the IMU acquisition fails. -/
def failingEnv (t mode : Nat) : LoopEnv := { msec := t, mode := mode, imu_acq_error := true }

end Boat

/-! # The range-at-angle mode of the sensor driver module

A shallow embedding of `range_at_angle_mode` of `range_at_angle.c`
(pico_module/range_at_angle). The servo, the LiDAR, the encoder and the microsecond timer
are collaborators; their answers are given per iteration of the loop. -/

namespace RangeAtAngle

/-- The `#define TOLERANCE 500` (centidegrees). -/
def TOLERANCE : Int := 500

/-- The `#define LIDAR_PERIOD 20000` (microseconds). -/
def LIDAR_PERIOD : Nat := 20000

/-- The `#define ENCODER_PERIOD 1000` (microseconds). -/
def ENCODER_PERIOD : Nat := 1000

/-- Conversion of an `int` value to `int16_t`, as in the initialisation of `lower_limit`
and `upper_limit`: the value modulo `2^16`, taken between `-2^15` and `2^15 - 1`. -/
def to_int16 (x : Int) : Int := (x + 2 ^ 15) % 2 ^ 16 - 2 ^ 15

/-- The local `int16_t lower_limit = angle - TOLERANCE`. -/
def lower_limit (angle : Int) : Int := to_int16 (angle - TOLERANCE)

/-- The local `int16_t upper_limit = angle + TOLERANCE`. -/
def upper_limit (angle : Int) : Int := to_int16 (angle + TOLERANCE)

/-- A call made by `range_at_angle_mode` to a collaborator. -/
inductive Call where
  /-- The call `MG90S_servo_set_angle(angle)`. -/
  | MG90S_servo_set_angle (angle : Int)
  /-- The call `get_angle_and_range(initial_angle)`. -/
  | get_angle_and_range (initial_angle : Nat)
  /-- The `printf` of an intermediate reading, `Angle: ..., Distnace: ...`. -/
  | printf_angle (angle : Int) (range : Nat)
  /-- The call `get_angle(initial_angle)`. -/
  | get_angle (initial_angle : Nat)
  /-- The `printf` of the final reading, `Final Angle: ..., Distnace: ...`. -/
  | printf_final (angle : Int) (range : Nat)
deriving Repr, DecidableEq

/-- What the collaborators return during one iteration of the `while(1)` loop. -/
structure LoopEnv where
  /-- The reading `time_us_32()`. -/
  time_us : Nat
  /-- The angle in the result of `get_angle_and_range` in the LiDAR branch. -/
  lidar_angle : Int
  /-- The range in the result of `get_angle_and_range` in the LiDAR branch. -/
  lidar_range : Nat
  /-- The result of `get_angle` in the encoder branch. -/
  encoder_angle : Int
  /-- The angle in the result of `get_angle_and_range` before `break`. -/
  final_angle : Int
  /-- The range in the result of `get_angle_and_range` before `break`. -/
  final_range : Nat

/-- The locals of `range_at_angle_mode` that live across iterations. The local
`angle_from_encoder` is declared without a value: until its first assignment it holds
whatever its storage holds. -/
structure LoopState where
  lidar_start_time : Nat
  encoder_start_time : Nat
  angle_from_encoder : Int

/-- The condition `output.angle <= lower_limit || output.angle >= upper_limit` under which
the LiDAR branch prints. -/
def outside_limits (lower upper a : Int) : Bool := decide (a ≤ lower) || decide (a ≥ upper)

/-- The condition `(angle_from_encoder > lower_limit) && (angle_from_encoder <
upper_limit)` under which the loop is left. -/
def inside_limits (lower upper a : Int) : Bool := decide (a > lower) && decide (a < upper)

/-- The statement `if ((lidar_current_time - lidar_start_time) >= LIDAR_PERIOD) { ... }`. -/
def lidar_branch (lower upper : Int) (initial_angle : Nat) (env : LoopEnv) (s : LoopState) :
    LoopState × List Call :=
  if LIDAR_PERIOD ≤ Rover.u32_sub env.time_us s.lidar_start_time then
    let calls := [Call.get_angle_and_range initial_angle]
    let calls :=
      if outside_limits lower upper env.lidar_angle then
        calls ++ [Call.printf_angle env.lidar_angle env.lidar_range]
      else calls
    ({ s with angle_from_encoder := env.lidar_angle, lidar_start_time := env.time_us },
      calls)
  else
    (s, [])

/-- The statement `if ((encoder_current_time - encoder_start_time) >= ENCODER_PERIOD)
{ ... }`. -/
def encoder_branch (initial_angle : Nat) (env : LoopEnv) (s : LoopState) :
    LoopState × List Call :=
  if ENCODER_PERIOD ≤ Rover.u32_sub env.time_us s.encoder_start_time then
    ({ s with angle_from_encoder := env.encoder_angle,
              encoder_start_time := env.time_us },
      [Call.get_angle initial_angle])
  else
    (s, [])

/-- The value of `angle_from_encoder` when the exit condition of an iteration is tested. -/
def tested_angle (lower upper : Int) (initial_angle : Nat) (env : LoopEnv) (s : LoopState) :
    Int :=
  (encoder_branch initial_angle env
    (lidar_branch lower upper initial_angle env s).1).1.angle_from_encoder

/-- How an iteration of the loop ends. -/
inductive Outcome where
  /-- The loop goes on in the given state. -/
  | running (s : LoopState) (calls : List Call)
  /-- The `break` is taken; `a` is the value of `angle_from_encoder` tested. -/
  | returned (a : Int) (calls : List Call)

/-- One iteration of the `while(1)` loop of `range_at_angle_mode`: the two timed branches,
then the exit test on whatever `angle_from_encoder` holds. -/
def loop_iteration (lower upper : Int) (initial_angle : Nat) (env : LoopEnv)
    (s : LoopState) : Outcome :=
  let r1 := lidar_branch lower upper initial_angle env s
  let r2 := encoder_branch initial_angle env r1.1
  if inside_limits lower upper r2.1.angle_from_encoder then
    Outcome.returned r2.1.angle_from_encoder
      (r1.2 ++ r2.2 ++ [Call.get_angle_and_range initial_angle,
        Call.printf_final env.final_angle env.final_range])
  else
    Outcome.running r2.1 (r1.2 ++ r2.2)

/-- How a call of `range_at_angle_mode` ends. -/
inductive Result where
  /-- The function returns in iteration `n`, having tested the value `a`. -/
  | returned (n : Nat) (a : Int) (calls : List Call)
  /-- The loop is still running after the iterations followed. -/
  | running
deriving Repr, DecidableEq

/-- The `while(1)` loop from iteration `k` on, followed for at most `fuel` iterations. -/
def loop (lower upper : Int) (initial_angle : Nat) (env : Nat → LoopEnv) :
    Nat → Nat → LoopState → List Call → Result
  | 0, _, _, _ => Result.running
  | fuel + 1, k, s, calls =>
    match loop_iteration lower upper initial_angle (env k) s with
    | Outcome.returned a c => Result.returned k a (calls ++ c)
    | Outcome.running s1 c => loop lower upper initial_angle env fuel (k + 1) s1 (calls ++ c)

/-- The function `range_at_angle_mode(angle, initial_angle)`, its loop followed for at most
`fuel` iterations. Both start times are initialised to 0; `stack_value` is what the storage
of the uninitialised local `angle_from_encoder` holds on entry. -/
def range_at_angle_mode (angle : Int) (initial_angle : Nat) (stack_value : Int)
    (env : Nat → LoopEnv) (fuel : Nat) : Result :=
  loop (lower_limit angle) (upper_limit angle) initial_angle env fuel 0
    { lidar_start_time := 0, encoder_start_time := 0, angle_from_encoder := stack_value }
    [Call.MG90S_servo_set_angle angle]

/-- Iterations for examples, 1 ms apart from 25 ms on; the encoder reads 500 in the first
iteration and 700 afterwards, the LiDAR branch reads the angle 300. -/
def exampleEnv : Nat → LoopEnv := fun n =>
  { time_us := 25000 + n * 1000, lidar_angle := 300, lidar_range := 120,
    encoder_angle := if n = 0 then 500 else 700, final_angle := 710, final_range := 121 }

/-- Iterations for examples that start 500 microseconds after the timer passed zero, 1 ms
apart, with the servo standing at 9000 centidegrees: every reading gives 9000. -/
def earlyEnv : Nat → LoopEnv := fun n =>
  { time_us := 500 + n * 1000, lidar_angle := 9000, lidar_range := 120,
    encoder_angle := 9000, final_angle := 9000, final_range := 120 }

end RangeAtAngle

namespace Rover

/-! ## Auxiliary facts -/

theorem c_abs_eq_abs (x : Int) : c_abs x = |x| := by
  unfold c_abs
  split
  · rename_i h
    rw [abs_of_neg h]
  · rename_i h
    rw [abs_of_nonneg (not_lt.mp h)]

theorem set_control_output_of_intol (cfg : Config) (RC_channels : ChannelBuffer)
    (h : |hash_check RC_channels - RC_channels HASH| ≤ 10) :
    set_control_output cfg RC_channels =
      [ Call.RC_servo_set_pulse (calc_pw cfg (RC_channels ELE)) motors.MOTOR_1,
        Call.RC_servo_set_pulse (calc_pw cfg (RC_channels ELE)) motors.MOTOR_2,
        Call.RC_servo_set_pulse (calc_pw cfg (RC_channels RUD)) motors.MOTOR_3 ] := by
  rw [← c_abs_eq_abs] at h
  simp only [set_control_output]
  rw [if_pos h]

theorem set_control_output_of_not_intol (cfg : Config) (RC_channels : ChannelBuffer)
    (h : ¬ |hash_check RC_channels - RC_channels HASH| ≤ 10) :
    set_control_output cfg RC_channels =
      [ Call.printf_RC [RC_channels THR, RC_channels AIL, RC_channels ELE, RC_channels RUD,
          RC_channels HASH, hash_check RC_channels, 0] ] := by
  rw [← c_abs_eq_abs] at h
  simp only [set_control_output]
  rw [if_neg h]

theorem forwards_pulse_iff (cfg : Config) (RC_channels : ChannelBuffer) :
    forwards_pulse (set_control_output cfg RC_channels) ↔
      |hash_check RC_channels - RC_channels HASH| ≤ 10 := by
  constructor
  · intro hf
    by_contra hn
    obtain ⟨pulse, motor, hmem⟩ := hf
    rw [set_control_output_of_not_intol cfg RC_channels hn] at hmem
    simp at hmem
  · intro h
    refine ⟨calc_pw cfg (RC_channels ELE), motors.MOTOR_1, ?_⟩
    rw [set_control_output_of_intol cfg RC_channels h]
    simp

/-! ## RC validation -/

/-- C1: `set_control_output` forwards pulses to the actuators if and only if the sum of
the four primary channels, each shifted right by two bits, differs from the hash channel
by at most 10; the frame of four channels at 1000 with hash 996 is accepted and the same
frame with hash 500 is rejected. It holds for every buffer, so in particular for every
buffer with non-negative channel values. -/
theorem set_control_output_accepts_iff (cfg : Config) (RC_channels : ChannelBuffer) :
    (forwards_pulse (set_control_output cfg RC_channels) ↔
      |((RC_channels THR >>> (2 : Nat)) + (RC_channels AIL >>> (2 : Nat))
          + (RC_channels ELE >>> (2 : Nat)) + (RC_channels RUD >>> (2 : Nat)))
        - RC_channels HASH| ≤ 10)
    ∧ forwards_pulse (set_control_output cfg (frame 1000 1000 1000 1000 996))
    ∧ ¬ forwards_pulse (set_control_output cfg (frame 1000 1000 1000 1000 500)) := by
  refine ⟨forwards_pulse_iff cfg RC_channels, ?_, ?_⟩
  · rw [forwards_pulse_iff]
    decide
  · rw [forwards_pulse_iff]
    decide

/-- C2: when the buffer fails the hash check, `set_control_output` makes no call to
`RC_servo_set_pulse`; whatever the servo driver does with a pulse, the actuator state after
the call is the state before it, and with the pulse widths stored per motor every motor
keeps the pulse width it had. -/
theorem set_control_output_rejected_retains (cfg : Config) (RC_channels : ChannelBuffer)
    (hfail : ¬ |hash_check RC_channels - RC_channels HASH| ≤ 10) :
    (∀ pulse motor,
        Call.RC_servo_set_pulse pulse motor ∉ set_control_output cfg RC_channels)
    ∧ (∀ (σ : Type) (driver : Int → motors → σ → σ) (s : σ),
        run_actuators driver (set_control_output cfg RC_channels) s = s)
    ∧ (∀ (pw : motors → Int) (m : motors),
        run_actuators store_pulse (set_control_output cfg RC_channels) pw m = pw m) := by
  rw [set_control_output_of_not_intol cfg RC_channels hfail]
  refine ⟨?_, ?_, ?_⟩
  · intro pulse motor hmem
    simp at hmem
  · intro σ driver s
    rfl
  · intro pw m
    rfl

/-- Witness for C2: the frame of four channels at 1000 with hash 500 fails the check. -/
theorem set_control_output_rejected_retains_witness :
    (¬ |hash_check (frame 1000 1000 1000 1000 500) - frame 1000 1000 1000 1000 500 HASH| ≤ 10)
    ∧ ((∀ pulse motor, Call.RC_servo_set_pulse pulse motor ∉
          set_control_output exampleConfig (frame 1000 1000 1000 1000 500))
      ∧ (∀ (σ : Type) (driver : Int → motors → σ → σ) (s : σ),
          run_actuators driver
            (set_control_output exampleConfig (frame 1000 1000 1000 1000 500)) s = s)
      ∧ (∀ (pw : motors → Int) (m : motors),
          run_actuators store_pulse
            (set_control_output exampleConfig (frame 1000 1000 1000 1000 500)) pw m = pw m)) :=
  ⟨by decide,
    set_control_output_rejected_retains exampleConfig (frame 1000 1000 1000 1000 500)
      (by decide)⟩

/-- C8: when the buffer passes the hash check, `set_control_output` makes exactly three calls
of `RC_servo_set_pulse`, in this order: `calc_pw(ELE)` to `MOTOR_1`, `calc_pw(ELE)` to
`MOTOR_2` and `calc_pw(RUD)` to `MOTOR_3`; no pulse goes to `MOTOR_4`, whose stored pulse
width is unchanged. -/
theorem set_control_output_accepted_calls (cfg : Config) (RC_channels : ChannelBuffer)
    (hpass : |hash_check RC_channels - RC_channels HASH| ≤ 10) :
    set_control_output cfg RC_channels =
      [ Call.RC_servo_set_pulse (calc_pw cfg (RC_channels ELE)) motors.MOTOR_1,
        Call.RC_servo_set_pulse (calc_pw cfg (RC_channels ELE)) motors.MOTOR_2,
        Call.RC_servo_set_pulse (calc_pw cfg (RC_channels RUD)) motors.MOTOR_3 ]
    ∧ (∀ pulse, Call.RC_servo_set_pulse pulse motors.MOTOR_4 ∉
          set_control_output cfg RC_channels)
    ∧ (∀ pw : motors → Int,
        run_actuators store_pulse (set_control_output cfg RC_channels) pw motors.MOTOR_1
            = calc_pw cfg (RC_channels ELE)
        ∧ run_actuators store_pulse (set_control_output cfg RC_channels) pw motors.MOTOR_2
            = calc_pw cfg (RC_channels ELE)
        ∧ run_actuators store_pulse (set_control_output cfg RC_channels) pw motors.MOTOR_3
            = calc_pw cfg (RC_channels RUD)
        ∧ run_actuators store_pulse (set_control_output cfg RC_channels) pw motors.MOTOR_4
            = pw motors.MOTOR_4) := by
  rw [set_control_output_of_intol cfg RC_channels hpass]
  refine ⟨rfl, ?_, ?_⟩
  · intro pulse hmem
    simp at hmem
  · intro pw
    simp [run_actuators, store_pulse]

/-- Witness for C8: the frame of four channels at 1000 with hash 996 passes the check. -/
theorem set_control_output_accepted_calls_witness :
    |hash_check (frame 1000 1000 1000 1000 996) - frame 1000 1000 1000 1000 996 HASH| ≤ 10
    ∧ set_control_output exampleConfig (frame 1000 1000 1000 1000 996) =
      [ Call.RC_servo_set_pulse 1504 motors.MOTOR_1,
        Call.RC_servo_set_pulse 1504 motors.MOTOR_2,
        Call.RC_servo_set_pulse 1504 motors.MOTOR_3 ] :=
  ⟨by decide,
    (set_control_output_accepted_calls exampleConfig (frame 1000 1000 1000 1000 996)
      (by decide)).1⟩

/-! ## The pulse-width map -/

theorem tdiv_le_tdiv_of_le {a b d : Int} (hd : 0 < d) (h : a ≤ b) :
    a.tdiv d ≤ b.tdiv d := by
  rcases le_or_lt 0 a with ha | ha
  · rw [Int.tdiv_eq_ediv ha hd.le, Int.tdiv_eq_ediv (ha.trans h) hd.le]
    exact Int.ediv_le_ediv hd h
  · have hna : 0 ≤ -a := by omega
    have ea : a.tdiv d = -((-a) / d) := by
      rw [← Int.tdiv_eq_ediv hna hd.le, Int.neg_tdiv, neg_neg]
    have ha0 : 0 ≤ (-a) / d := Int.ediv_nonneg hna hd.le
    rcases le_or_lt 0 b with hb | hb
    · have hb0 : 0 ≤ b.tdiv d := Int.tdiv_nonneg hb hd.le
      omega
    · have hnb : 0 ≤ -b := by omega
      have eb : b.tdiv d = -((-b) / d) := by
        rw [← Int.tdiv_eq_ediv hnb hd.le, Int.neg_tdiv, neg_neg]
      have hle : (-b) / d ≤ (-a) / d := Int.ediv_le_ediv hd (by omega)
      omega

theorem abs_tmod_lt (a d : Int) (hd : d ≠ 0) : |a.tmod d| < |d| := by
  have key : ∀ x y : Int, 0 < y → |x.tmod y| < y := by
    intro x y hy
    rcases le_or_lt 0 x with hx | hx
    · rw [abs_of_nonneg (Int.tmod_nonneg y hx)]
      exact Int.tmod_lt_of_pos x hy
    · have hnx : 0 ≤ -x := by omega
      have e : x.tmod y = -((-x).tmod y) := by
        have h1 := Int.tmod_def x y
        have h2 := Int.tmod_def (-x) y
        rw [Int.neg_tdiv] at h2
        rw [h1, h2]
        ring
      rw [e, abs_neg, abs_of_nonneg (Int.tmod_nonneg y hnx)]
      exact Int.tmod_lt_of_pos (-x) hy
  rcases lt_or_gt_of_ne hd with h | h
  · have := key a (-d) (by omega)
    rw [Int.tmod_neg] at this
    rw [abs_of_neg h]
    exact this
  · rw [abs_of_pos h]
    exact key a d h

theorem abs_tdiv_le_abs (a d : Int) : |a.tdiv d| ≤ |a| := by
  have h : (a.tdiv d).natAbs ≤ a.natAbs := by
    rw [Int.natAbs_tdiv]
    exact Nat.div_le_self _ _
  have e1 : |a.tdiv d| = ((a.tdiv d).natAbs : Int) := (Int.natCast_natAbs _).symm
  have e2 : |a| = (a.natAbs : Int) := (Int.natCast_natAbs _).symm
  rw [e1, e2]
  exact_mod_cast h

theorem calc_pw_eq (cfg : Config) (raw : Int) :
    calc_pw cfg raw = cfg.RC_SERVO_CENTER_PULSE +
      Int.tdiv ((raw - cfg.RC_RX_MID_COUNTS) * (cfg.RC_SERVO_MAX_PULSE - cfg.RC_SERVO_MIN_PULSE))
        (cfg.RC_RX_MAX_COUNTS - cfg.RC_RX_MIN_COUNTS) := by
  simp only [calc_pw]
  ring

theorem calc_pw_mono (cfg : Config) (r1 r2 : Int)
    (hrc : cfg.RC_RX_MIN_COUNTS < cfg.RC_RX_MAX_COUNTS)
    (hservo : cfg.RC_SERVO_MIN_PULSE ≤ cfg.RC_SERVO_MAX_PULSE)
    (h : r1 ≤ r2) : calc_pw cfg r1 ≤ calc_pw cfg r2 := by
  rw [calc_pw_eq, calc_pw_eq]
  have hd : 0 < cfg.RC_RX_MAX_COUNTS - cfg.RC_RX_MIN_COUNTS := by omega
  have hn : 0 ≤ cfg.RC_SERVO_MAX_PULSE - cfg.RC_SERVO_MIN_PULSE := by omega
  have hmul : (r1 - cfg.RC_RX_MID_COUNTS) * (cfg.RC_SERVO_MAX_PULSE - cfg.RC_SERVO_MIN_PULSE)
      ≤ (r2 - cfg.RC_RX_MID_COUNTS) * (cfg.RC_SERVO_MAX_PULSE - cfg.RC_SERVO_MIN_PULSE) :=
    mul_le_mul_of_nonneg_right (by omega) hn
  have := tdiv_le_tdiv_of_le hd hmul
  omega

/-! ## The `int` range

The two lemmas below justify reading C `int` arithmetic as arithmetic on `Int`: for channel
values and constants of the sizes that occur, no intermediate value leaves the 32-bit range. -/

theorem hash_check_in_int_range (RC_channels : ChannelBuffer)
    (hch : ∀ i, 0 ≤ RC_channels i ∧ RC_channels i < 2 ^ 31) :
    (0 ≤ hash_check RC_channels ∧ hash_check RC_channels < 2 ^ 31)
    ∧ (-(2 ^ 31) < hash_check RC_channels - RC_channels HASH
        ∧ hash_check RC_channels - RC_channels HASH < 2 ^ 31) := by
  have h0 := hch THR
  have h1 := hch AIL
  have h2 := hch ELE
  have h3 := hch RUD
  have h4 := hch HASH
  have e : ∀ x : Int, x >>> (2 : Nat) = x / 4 := by
    intro x
    rw [Int.shiftRight_eq_div_pow]
    rfl
  simp only [hash_check, e]
  omega

theorem calc_pw_in_int_range (cfg : Config) (raw : Int)
    (hraw : 0 ≤ raw ∧ raw < 2 ^ 15)
    (hmin : 0 ≤ cfg.RC_RX_MIN_COUNTS ∧ cfg.RC_RX_MIN_COUNTS < 2 ^ 15)
    (hmid : 0 ≤ cfg.RC_RX_MID_COUNTS ∧ cfg.RC_RX_MID_COUNTS < 2 ^ 15)
    (hmax : 0 ≤ cfg.RC_RX_MAX_COUNTS ∧ cfg.RC_RX_MAX_COUNTS < 2 ^ 15)
    (hpmin : 0 ≤ cfg.RC_SERVO_MIN_PULSE ∧ cfg.RC_SERVO_MIN_PULSE < 2 ^ 15)
    (hpmid : 0 ≤ cfg.RC_SERVO_CENTER_PULSE ∧ cfg.RC_SERVO_CENTER_PULSE < 2 ^ 15)
    (hpmax : 0 ≤ cfg.RC_SERVO_MAX_PULSE ∧ cfg.RC_SERVO_MAX_PULSE < 2 ^ 15) :
    |cfg.RC_RX_MAX_COUNTS - cfg.RC_RX_MIN_COUNTS| < 2 ^ 15
    ∧ |(raw - cfg.RC_RX_MID_COUNTS) * (cfg.RC_SERVO_MAX_PULSE - cfg.RC_SERVO_MIN_PULSE)| < 2 ^ 30
    ∧ |Int.tdiv ((raw - cfg.RC_RX_MID_COUNTS)
          * (cfg.RC_SERVO_MAX_PULSE - cfg.RC_SERVO_MIN_PULSE))
        (cfg.RC_RX_MAX_COUNTS - cfg.RC_RX_MIN_COUNTS)| < 2 ^ 30
    ∧ |calc_pw cfg raw| < 2 ^ 31 := by
  have ha : |raw - cfg.RC_RX_MID_COUNTS| < 2 ^ 15 := by
    rw [abs_lt]
    omega
  have hb : |cfg.RC_SERVO_MAX_PULSE - cfg.RC_SERVO_MIN_PULSE| < 2 ^ 15 := by
    rw [abs_lt]
    omega
  have hprod : |(raw - cfg.RC_RX_MID_COUNTS)
      * (cfg.RC_SERVO_MAX_PULSE - cfg.RC_SERVO_MIN_PULSE)| < 2 ^ 30 := by
    rw [abs_mul]
    calc |raw - cfg.RC_RX_MID_COUNTS| * |cfg.RC_SERVO_MAX_PULSE - cfg.RC_SERVO_MIN_PULSE|
        < 2 ^ 15 * 2 ^ 15 := mul_lt_mul'' ha hb (abs_nonneg _) (abs_nonneg _)
      _ = 2 ^ 30 := by norm_num
  have hquot : |Int.tdiv ((raw - cfg.RC_RX_MID_COUNTS)
        * (cfg.RC_SERVO_MAX_PULSE - cfg.RC_SERVO_MIN_PULSE))
      (cfg.RC_RX_MAX_COUNTS - cfg.RC_RX_MIN_COUNTS)| < 2 ^ 30 :=
    lt_of_le_of_lt (abs_tdiv_le_abs _ _) hprod
  have hden : |cfg.RC_RX_MAX_COUNTS - cfg.RC_RX_MIN_COUNTS| < 2 ^ 15 := by
    rw [abs_lt]
    omega
  refine ⟨hden, hprod, hquot, ?_⟩
  rw [calc_pw_eq]
  rw [abs_lt] at hquot ⊢
  omega

/-- C4: `calc_pw` maps the mid count to the centre pulse exactly, for every choice of the
constants with a non-zero count range (the range is the divisor; the product divided is
zero, so the quotient is zero). -/
theorem calc_pw_mid (cfg : Config)
    (_hrange : cfg.RC_RX_MAX_COUNTS ≠ cfg.RC_RX_MIN_COUNTS) :
    calc_pw cfg cfg.RC_RX_MID_COUNTS = cfg.RC_SERVO_CENTER_PULSE := by
  rw [calc_pw_eq, sub_self, zero_mul, Int.zero_tdiv, add_zero]

/-- Witness for C4: the constants 172/992/1811 and 1000/1500/2000. -/
theorem calc_pw_mid_witness :
    exampleConfig.RC_RX_MAX_COUNTS ≠ exampleConfig.RC_RX_MIN_COUNTS
    ∧ calc_pw exampleConfig 992 = 1500 :=
  ⟨by decide, calc_pw_mid exampleConfig (by decide)⟩

/-- C6: `calc_pw` is monotonic non-decreasing over the receiver range when the count range
is positive and the pulse range is non-negative: for raw counts `min ≤ r1 ≤ r2 ≤ max`, on
either side of the mid point, `calc_pw r1 ≤ calc_pw r2`, and both values lie between the
images of the two end counts. -/
theorem calc_pw_monotone (cfg : Config) (r1 r2 : Int)
    (hrc : cfg.RC_RX_MAX_COUNTS > cfg.RC_RX_MIN_COUNTS)
    (hservo : cfg.RC_SERVO_MAX_PULSE ≥ cfg.RC_SERVO_MIN_PULSE)
    (h1 : cfg.RC_RX_MIN_COUNTS ≤ r1) (h12 : r1 ≤ r2) (h2 : r2 ≤ cfg.RC_RX_MAX_COUNTS) :
    calc_pw cfg r1 ≤ calc_pw cfg r2
    ∧ calc_pw cfg cfg.RC_RX_MIN_COUNTS ≤ calc_pw cfg r1
    ∧ calc_pw cfg r2 ≤ calc_pw cfg cfg.RC_RX_MAX_COUNTS :=
  ⟨calc_pw_mono cfg r1 r2 hrc hservo h12,
    calc_pw_mono cfg _ r1 hrc hservo h1,
    calc_pw_mono cfg r2 _ hrc hservo h2⟩

/-- Witness for C6: counts 500 and 1500 lie on the two sides of the mid point 992. -/
theorem calc_pw_monotone_witness :
    (exampleConfig.RC_RX_MAX_COUNTS > exampleConfig.RC_RX_MIN_COUNTS
      ∧ exampleConfig.RC_SERVO_MAX_PULSE ≥ exampleConfig.RC_SERVO_MIN_PULSE
      ∧ exampleConfig.RC_RX_MIN_COUNTS ≤ 500 ∧ (500 : Int) ≤ 1500
      ∧ 1500 ≤ exampleConfig.RC_RX_MAX_COUNTS)
    ∧ calc_pw exampleConfig 500 ≤ calc_pw exampleConfig 1500 :=
  ⟨by decide,
    (calc_pw_monotone exampleConfig 500 1500 (by decide) (by decide) (by decide) (by decide)
      (by decide)).1⟩

/-- C7: for every raw count, `calc_pw` is the centre pulse plus the quotient, truncated
toward zero, of `(raw - mid) * servo_range` by `rc_range` (product first, then division),
and it differs from the exact rational value `(raw - mid) * (servo_range / rc_range) + center`
by less than one microsecond. The count range is non-zero, as the division requires. -/
theorem calc_pw_linear_map (cfg : Config) (raw : Int)
    (hrange : cfg.RC_RX_MAX_COUNTS ≠ cfg.RC_RX_MIN_COUNTS) :
    calc_pw cfg raw = cfg.RC_SERVO_CENTER_PULSE +
        Int.tdiv ((raw - cfg.RC_RX_MID_COUNTS)
            * (cfg.RC_SERVO_MAX_PULSE - cfg.RC_SERVO_MIN_PULSE))
          (cfg.RC_RX_MAX_COUNTS - cfg.RC_RX_MIN_COUNTS)
    ∧ |(calc_pw cfg raw : ℚ) -
        (((raw : ℚ) - cfg.RC_RX_MID_COUNTS)
            * (((cfg.RC_SERVO_MAX_PULSE : ℚ) - cfg.RC_SERVO_MIN_PULSE)
                / ((cfg.RC_RX_MAX_COUNTS : ℚ) - cfg.RC_RX_MIN_COUNTS))
          + cfg.RC_SERVO_CENTER_PULSE)| < 1 := by
  refine ⟨calc_pw_eq cfg raw, ?_⟩
  rw [calc_pw_eq]
  set N : Int := (raw - cfg.RC_RX_MID_COUNTS)
    * (cfg.RC_SERVO_MAX_PULSE - cfg.RC_SERVO_MIN_PULSE) with hN
  set d : Int := cfg.RC_RX_MAX_COUNTS - cfg.RC_RX_MIN_COUNTS with hdef
  have hd : d ≠ 0 := sub_ne_zero.mpr hrange
  have hdq : (d : ℚ) ≠ 0 := by exact_mod_cast hd
  have hsplit : (N : ℚ) = (d : ℚ) * (N.tdiv d : ℚ) + (N.tmod d : ℚ) := by
    exact_mod_cast (Int.tdiv_add_tmod N d).symm
  have hrem : |(N.tmod d : ℚ)| < |(d : ℚ)| := by
    exact_mod_cast abs_tmod_lt N d hd
  have hexact : ((raw : ℚ) - cfg.RC_RX_MID_COUNTS)
      * (((cfg.RC_SERVO_MAX_PULSE : ℚ) - cfg.RC_SERVO_MIN_PULSE)
          / ((cfg.RC_RX_MAX_COUNTS : ℚ) - cfg.RC_RX_MIN_COUNTS)) = (N : ℚ) / (d : ℚ) := by
    rw [hN, hdef]
    push_cast
    ring
  rw [hexact]
  have hdiff : ((cfg.RC_SERVO_CENTER_PULSE + N.tdiv d : Int) : ℚ)
      - ((N : ℚ) / (d : ℚ) + cfg.RC_SERVO_CENTER_PULSE) = -((N.tmod d : ℚ) / (d : ℚ)) := by
    rw [hsplit]
    push_cast
    field_simp
    ring
  rw [hdiff, abs_neg, abs_div, div_lt_one (abs_pos.mpr hdq)]
  exact hrem

/-- Witness for C7: the constants 172/992/1811 and 1000/1500/2000 at the raw count 1811,
where the exact value is `1500 + 819000/1639` and `calc_pw` gives 1999. -/
theorem calc_pw_linear_map_witness :
    exampleConfig.RC_RX_MAX_COUNTS ≠ exampleConfig.RC_RX_MIN_COUNTS
    ∧ calc_pw exampleConfig 1811 = 1500 + Int.tdiv ((1811 - 992) * (2000 - 1000)) (1811 - 172)
    ∧ |(calc_pw exampleConfig 1811 : ℚ) -
        ((((1811 : Int) : ℚ) - exampleConfig.RC_RX_MID_COUNTS)
            * (((exampleConfig.RC_SERVO_MAX_PULSE : ℚ) - exampleConfig.RC_SERVO_MIN_PULSE)
                / ((exampleConfig.RC_RX_MAX_COUNTS : ℚ) - exampleConfig.RC_RX_MIN_COUNTS))
          + exampleConfig.RC_SERVO_CENTER_PULSE)| < 1 :=
  ⟨by decide, calc_pw_linear_map exampleConfig 1811 (by decide)⟩

/-- Counterexample to C5 as stated: with the constants 172/992/1811 and 1000/1500/2000,
which are ordered as required, `calc_pw` maps the maximum count 1811 to 1999, one
microsecond below the maximum pulse 2000. -/
theorem calc_pw_max_counterexample :
    (exampleConfig.RC_RX_MIN_COUNTS < exampleConfig.RC_RX_MID_COUNTS
      ∧ exampleConfig.RC_RX_MID_COUNTS < exampleConfig.RC_RX_MAX_COUNTS
      ∧ exampleConfig.RC_SERVO_MIN_PULSE < exampleConfig.RC_SERVO_CENTER_PULSE
      ∧ exampleConfig.RC_SERVO_CENTER_PULSE < exampleConfig.RC_SERVO_MAX_PULSE)
    ∧ calc_pw exampleConfig exampleConfig.RC_RX_MAX_COUNTS = 1999
    ∧ ¬ (calc_pw exampleConfig exampleConfig.RC_RX_MIN_COUNTS
            = exampleConfig.RC_SERVO_MIN_PULSE
          ∧ calc_pw exampleConfig exampleConfig.RC_RX_MAX_COUNTS
            = exampleConfig.RC_SERVO_MAX_PULSE) := by
  decide

/-- C5 (amended): with a non-zero count range, `calc_pw` maps the minimum count to the
centre pulse minus the truncated quotient of `(mid - min) * servo_range` by `rc_range`, and
the maximum count to the centre pulse plus the truncated quotient of
`(max - mid) * servo_range` by `rc_range`. These are the minimum and maximum pulse exactly
whenever the constants are proportional, `(mid - min) * servo_range = (center - min_pulse) *
rc_range` and `(max - mid) * servo_range = (max_pulse - center) * rc_range`. For 172/992/1811
and 1000/1500/2000 the minimum count gives 1000 and the maximum count gives 1999. -/
theorem calc_pw_end_points (cfg : Config)
    (hrange : cfg.RC_RX_MAX_COUNTS ≠ cfg.RC_RX_MIN_COUNTS) :
    calc_pw cfg cfg.RC_RX_MIN_COUNTS = cfg.RC_SERVO_CENTER_PULSE -
        Int.tdiv ((cfg.RC_RX_MID_COUNTS - cfg.RC_RX_MIN_COUNTS)
            * (cfg.RC_SERVO_MAX_PULSE - cfg.RC_SERVO_MIN_PULSE))
          (cfg.RC_RX_MAX_COUNTS - cfg.RC_RX_MIN_COUNTS)
    ∧ calc_pw cfg cfg.RC_RX_MAX_COUNTS = cfg.RC_SERVO_CENTER_PULSE +
        Int.tdiv ((cfg.RC_RX_MAX_COUNTS - cfg.RC_RX_MID_COUNTS)
            * (cfg.RC_SERVO_MAX_PULSE - cfg.RC_SERVO_MIN_PULSE))
          (cfg.RC_RX_MAX_COUNTS - cfg.RC_RX_MIN_COUNTS)
    ∧ ((cfg.RC_RX_MID_COUNTS - cfg.RC_RX_MIN_COUNTS)
          * (cfg.RC_SERVO_MAX_PULSE - cfg.RC_SERVO_MIN_PULSE)
        = (cfg.RC_SERVO_CENTER_PULSE - cfg.RC_SERVO_MIN_PULSE)
          * (cfg.RC_RX_MAX_COUNTS - cfg.RC_RX_MIN_COUNTS) →
        calc_pw cfg cfg.RC_RX_MIN_COUNTS = cfg.RC_SERVO_MIN_PULSE)
    ∧ ((cfg.RC_RX_MAX_COUNTS - cfg.RC_RX_MID_COUNTS)
          * (cfg.RC_SERVO_MAX_PULSE - cfg.RC_SERVO_MIN_PULSE)
        = (cfg.RC_SERVO_MAX_PULSE - cfg.RC_SERVO_CENTER_PULSE)
          * (cfg.RC_RX_MAX_COUNTS - cfg.RC_RX_MIN_COUNTS) →
        calc_pw cfg cfg.RC_RX_MAX_COUNTS = cfg.RC_SERVO_MAX_PULSE)
    ∧ calc_pw exampleConfig 172 = 1000
    ∧ calc_pw exampleConfig 1811 = 1999 := by
  have hd : cfg.RC_RX_MAX_COUNTS - cfg.RC_RX_MIN_COUNTS ≠ 0 := sub_ne_zero.mpr hrange
  have hmin : calc_pw cfg cfg.RC_RX_MIN_COUNTS = cfg.RC_SERVO_CENTER_PULSE -
      Int.tdiv ((cfg.RC_RX_MID_COUNTS - cfg.RC_RX_MIN_COUNTS)
          * (cfg.RC_SERVO_MAX_PULSE - cfg.RC_SERVO_MIN_PULSE))
        (cfg.RC_RX_MAX_COUNTS - cfg.RC_RX_MIN_COUNTS) := by
    rw [calc_pw_eq, sub_eq_add_neg cfg.RC_SERVO_CENTER_PULSE, ← Int.neg_tdiv]
    congr 2
    ring
  refine ⟨hmin, calc_pw_eq cfg _, ?_, ?_, by decide, by decide⟩
  · intro hprop
    rw [hmin, hprop, Int.mul_tdiv_cancel _ hd]
    ring
  · intro hprop
    rw [calc_pw_eq, hprop, Int.mul_tdiv_cancel _ hd]
    ring

/-- Witness for C5 (amended): the proportional constants 0/1000/2000 and 1000/1500/2000
satisfy every hypothesis, and there both end points are exact. -/
theorem calc_pw_end_points_witness :
    proportionalConfig.RC_RX_MAX_COUNTS ≠ proportionalConfig.RC_RX_MIN_COUNTS
    ∧ calc_pw proportionalConfig 0 = 1000
    ∧ calc_pw proportionalConfig 2000 = 2000 :=
  ⟨by decide,
    (calc_pw_end_points proportionalConfig (by decide)).2.2.1 (by decide),
    (calc_pw_end_points proportionalConfig (by decide)).2.2.2.1 (by decide)⟩

/-- Counterexample to C3 as stated: with the constants 172/992/1811 and 1000/1500/2000 the
frame with all four primary channels at the 11-bit value 2047 and hash 2044 passes the hash
check, and the pulse forwarded to `MOTOR_1` is 2143, above the maximum pulse 2000. -/
theorem set_control_output_pulse_counterexample :
    (exampleConfig.RC_RX_MIN_COUNTS < exampleConfig.RC_RX_MID_COUNTS
      ∧ exampleConfig.RC_RX_MID_COUNTS < exampleConfig.RC_RX_MAX_COUNTS
      ∧ exampleConfig.RC_SERVO_MIN_PULSE < exampleConfig.RC_SERVO_CENTER_PULSE
      ∧ exampleConfig.RC_SERVO_CENTER_PULSE < exampleConfig.RC_SERVO_MAX_PULSE)
    ∧ |hash_check (frame 2047 2047 2047 2047 2044) - frame 2047 2047 2047 2047 2044 HASH| ≤ 10
    ∧ (0 ≤ frame 2047 2047 2047 2047 2044 ELE ∧ frame 2047 2047 2047 2047 2044 ELE ≤ 2047)
    ∧ (0 ≤ frame 2047 2047 2047 2047 2044 RUD ∧ frame 2047 2047 2047 2047 2044 RUD ≤ 2047)
    ∧ Call.RC_servo_set_pulse 2143 motors.MOTOR_1
        ∈ set_control_output exampleConfig (frame 2047 2047 2047 2047 2044)
    ∧ ¬ (exampleConfig.RC_SERVO_MIN_PULSE ≤ 2143 ∧ 2143 ≤ exampleConfig.RC_SERVO_MAX_PULSE) := by
  decide

/-- C3 (amended): `calc_pw` does not clamp. When the count range is positive, the pulse
range non-negative, and `calc_pw` maps the minimum and the maximum count inside the pulse
range, then for every buffer that passes the hash check with `ELE` and `RUD` inside the
receiver range, every pulse that `set_control_output` forwards lies between the minimum and
the maximum pulse. -/
theorem set_control_output_pulses_bounded (cfg : Config) (RC_channels : ChannelBuffer)
    (hrc : cfg.RC_RX_MIN_COUNTS < cfg.RC_RX_MAX_COUNTS)
    (hservo : cfg.RC_SERVO_MIN_PULSE ≤ cfg.RC_SERVO_MAX_PULSE)
    (hlo : cfg.RC_SERVO_MIN_PULSE ≤ calc_pw cfg cfg.RC_RX_MIN_COUNTS)
    (hhi : calc_pw cfg cfg.RC_RX_MAX_COUNTS ≤ cfg.RC_SERVO_MAX_PULSE)
    (hpass : |hash_check RC_channels - RC_channels HASH| ≤ 10)
    (hELE : cfg.RC_RX_MIN_COUNTS ≤ RC_channels ELE ∧ RC_channels ELE ≤ cfg.RC_RX_MAX_COUNTS)
    (hRUD : cfg.RC_RX_MIN_COUNTS ≤ RC_channels RUD ∧ RC_channels RUD ≤ cfg.RC_RX_MAX_COUNTS) :
    ∀ pulse motor,
      Call.RC_servo_set_pulse pulse motor ∈ set_control_output cfg RC_channels →
        cfg.RC_SERVO_MIN_PULSE ≤ pulse ∧ pulse ≤ cfg.RC_SERVO_MAX_PULSE := by
  have bound : ∀ r, cfg.RC_RX_MIN_COUNTS ≤ r → r ≤ cfg.RC_RX_MAX_COUNTS →
      cfg.RC_SERVO_MIN_PULSE ≤ calc_pw cfg r ∧ calc_pw cfg r ≤ cfg.RC_SERVO_MAX_PULSE := by
    intro r h1 h2
    exact ⟨hlo.trans (calc_pw_mono cfg _ r hrc hservo h1),
      (calc_pw_mono cfg r _ hrc hservo h2).trans hhi⟩
  intro pulse motor hmem
  rw [set_control_output_of_intol cfg RC_channels hpass] at hmem
  simp only [List.mem_cons, Call.RC_servo_set_pulse.injEq, List.mem_singleton,
    List.not_mem_nil, or_false] at hmem
  rcases hmem with ⟨hp, _⟩ | ⟨hp, _⟩ | ⟨hp, _⟩
  · rw [hp]
    exact bound _ hELE.1 hELE.2
  · rw [hp]
    exact bound _ hELE.1 hELE.2
  · rw [hp]
    exact bound _ hRUD.1 hRUD.2

/-- Witness for C3 (amended): the constants 172/992/1811 and 1000/1500/2000 with the frame
whose four primary channels are at the maximum count 1811 and whose hash is 1808. -/
theorem set_control_output_pulses_bounded_witness :
    (exampleConfig.RC_RX_MIN_COUNTS < exampleConfig.RC_RX_MAX_COUNTS
      ∧ exampleConfig.RC_SERVO_MIN_PULSE ≤ exampleConfig.RC_SERVO_MAX_PULSE
      ∧ exampleConfig.RC_SERVO_MIN_PULSE ≤ calc_pw exampleConfig exampleConfig.RC_RX_MIN_COUNTS
      ∧ calc_pw exampleConfig exampleConfig.RC_RX_MAX_COUNTS ≤ exampleConfig.RC_SERVO_MAX_PULSE
      ∧ |hash_check (frame 1811 1811 1811 1811 1808)
          - frame 1811 1811 1811 1811 1808 HASH| ≤ 10)
    ∧ (1000 ≤ calc_pw exampleConfig 1811 ∧ calc_pw exampleConfig 1811 ≤ 2000) :=
  ⟨by decide,
    set_control_output_pulses_bounded exampleConfig (frame 1811 1811 1811 1811 1808)
      (by decide) (by decide) (by decide) (by decide) (by decide) (by decide) (by decide)
      (calc_pw exampleConfig 1811) motors.MOTOR_1 (by decide)⟩

/-! ## Scheduling -/

/-- C10: the unsigned difference is the true elapsed time across wraparound of the 32-bit
millisecond counter. For `last_run < 2^32` and an elapsed duration `e < 2^32`, with
`now = (last_run + e) mod 2^32` (which may be numerically below `last_run`), the difference
`now - last_run` modulo `2^32`, as `u32_sub` computes it and as `(now + 2^32 - last_run) mod
2^32`, is `e`, so the test `now - last_run >= period` holds exactly
when `e >= period`. -/
theorem u32_sub_elapsed (last_run e now period : Nat)
    (hlast : last_run < 2 ^ 32) (he : e < 2 ^ 32)
    (hnow : now = (last_run + e) % 2 ^ 32) :
    u32_sub now last_run = e
    ∧ (now + 2 ^ 32 - last_run) % 2 ^ 32 = e
    ∧ (period ≤ u32_sub now last_run ↔ period ≤ e) := by
  have hsub : u32_sub now last_run = e := by
    unfold u32_sub
    omega
  have hplain : (now + 2 ^ 32 - last_run) % 2 ^ 32 = e := by
    omega
  exact ⟨hsub, hplain, by rw [hsub]⟩

/-- Witness for C10: last run 5 ms before the counter wraps, 25 ms elapsed, so that the
counter reads 20, below the last run; the control period of 20 ms has elapsed. -/
theorem u32_sub_elapsed_witness :
    ((2 ^ 32 - 5 : Nat) < 2 ^ 32 ∧ (25 : Nat) < 2 ^ 32
      ∧ (20 : Nat) = ((2 ^ 32 - 5) + 25) % 2 ^ 32 ∧ (20 : Nat) < 2 ^ 32 - 5)
    ∧ u32_sub 20 (2 ^ 32 - 5) = 25
    ∧ (20 + 2 ^ 32 - (2 ^ 32 - 5)) % 2 ^ 32 = 25
    ∧ (CONTROL_PERIOD ≤ u32_sub 20 (2 ^ 32 - 5) ↔ CONTROL_PERIOD ≤ 25) :=
  ⟨by decide, u32_sub_elapsed (2 ^ 32 - 5) 25 20 CONTROL_PERIOD (by decide) (by decide)
    (by decide)⟩

theorem poll_events_fields (env : LoopEnv) (s : LoopState) :
    (poll_events env s).1.cur_time = env.msec
    ∧ (poll_events env s).1.control_start_time = s.control_start_time
    ∧ Call.IMU_start_data_acq ∉ (poll_events env s).2 := by
  simp only [poll_events, check_RC_events, check_IMU_events]
  split_ifs <;> simp

theorem control_block_fields (cfg : Config) (env : LoopEnv) (s : LoopState) :
    (control_block cfg env s).1.RC_channels = s.RC_channels
    ∧ (control_block cfg env s).1.control_start_time = s.cur_time
    ∧ (control_block cfg env s).1.cur_time = s.cur_time
    ∧ ∃ post, (control_block cfg env s).2 = set_control_output cfg s.RC_channels ++ post
        ∧ Call.IMU_start_data_acq ∈ post := by
  simp only [control_block]
  refine ⟨?_, ?_, ?_, ?_⟩
  · split_ifs <;> rfl
  · split_ifs <;> rfl
  · split_ifs <;> rfl
  · split_ifs
    all_goals simp only [List.append_assoc]
    all_goals exact ⟨_, rfl, by simp⟩

theorem attitude_task_fields (env : LoopEnv) (s : LoopState) :
    (attitude_task env s).1.RC_channels = s.RC_channels
    ∧ (attitude_task env s).1.control_start_time = s.control_start_time
    ∧ (attitude_task env s).1.cur_time = s.cur_time
    ∧ Call.IMU_start_data_acq ∉ (attitude_task env s).2 := by
  simp only [attitude_task, imu_ready_block]
  split_ifs <;> simp

theorem main_loop_iteration_due (cfg : Config) (env : LoopEnv) (s : LoopState)
    (hdue : CONTROL_PERIOD ≤ u32_sub env.msec s.control_start_time) :
    (main_loop_iteration cfg env s).1.cur_time = env.msec
    ∧ (main_loop_iteration cfg env s).1.control_start_time = env.msec
    ∧ control_task_ran cfg (main_loop_iteration cfg env s).1.RC_channels
        (main_loop_iteration cfg env s).2 := by
  obtain ⟨p1, p2, _⟩ := poll_events_fields env s
  have hct : control_task cfg env (poll_events env s).1
      = control_block cfg env (poll_events env s).1 := by
    unfold control_task
    rw [if_pos (by rw [p1, p2]; exact hdue)]
  obtain ⟨h1, h2, h3, post, h4, h5⟩ := control_block_fields cfg env (poll_events env s).1
  obtain ⟨g1, g2, g3, _⟩ := attitude_task_fields env (control_block cfg env (poll_events env s).1).1
  simp only [main_loop_iteration, hct]
  refine ⟨by rw [g3, h3, p1], by rw [g2, h2, p1], ?_⟩
  refine ⟨(poll_events env s).2,
    post ++ (attitude_task env (control_block cfg env (poll_events env s).1).1).2, ?_, ?_⟩
  · rw [g1, h1, h4]
    simp only [List.append_assoc]
  · exact List.mem_append_left _ h5

theorem main_loop_iteration_not_due (cfg : Config) (env : LoopEnv) (s : LoopState)
    (hdue : ¬ CONTROL_PERIOD ≤ u32_sub env.msec s.control_start_time) :
    (main_loop_iteration cfg env s).1.cur_time = env.msec
    ∧ (main_loop_iteration cfg env s).1.control_start_time = s.control_start_time
    ∧ Call.IMU_start_data_acq ∉ (main_loop_iteration cfg env s).2 := by
  obtain ⟨p1, p2, p3⟩ := poll_events_fields env s
  have hct : control_task cfg env (poll_events env s).1 = ((poll_events env s).1, []) := by
    unfold control_task
    rw [if_neg (by rw [p1, p2]; exact hdue)]
  obtain ⟨_, g2, g3, g4⟩ := attitude_task_fields env (poll_events env s).1
  simp only [main_loop_iteration, hct]
  refine ⟨by rw [g3, p1], by rw [g2, p2], ?_⟩
  simp only [List.append_nil, List.mem_append, not_or]
  exact ⟨p3, g4⟩

/-- C9: in one iteration of the main loop with clock reading `env.msec`, the control task
runs (the calls of `set_control_output` on the current buffer are made, followed by
`IMU_start_data_acq`) if and only if the difference of the reading and `control_start_time`
modulo `2^32` is at least `CONTROL_PERIOD`, which is 20; when it runs `control_start_time`
becomes the reading, and otherwise `control_start_time` is unchanged. -/
theorem main_loop_control_task (cfg : Config) (env : LoopEnv) (s : LoopState) :
    CONTROL_PERIOD = 20
    ∧ (main_loop_iteration cfg env s).1.cur_time = env.msec
    ∧ (control_task_ran cfg (main_loop_iteration cfg env s).1.RC_channels
          (main_loop_iteration cfg env s).2
        ↔ CONTROL_PERIOD ≤ u32_sub env.msec s.control_start_time)
    ∧ (Call.IMU_start_data_acq ∈ (main_loop_iteration cfg env s).2
        ↔ CONTROL_PERIOD ≤ u32_sub env.msec s.control_start_time)
    ∧ (CONTROL_PERIOD ≤ u32_sub env.msec s.control_start_time →
        (main_loop_iteration cfg env s).1.control_start_time = env.msec)
    ∧ (¬ CONTROL_PERIOD ≤ u32_sub env.msec s.control_start_time →
        (main_loop_iteration cfg env s).1.control_start_time = s.control_start_time) := by
  by_cases hdue : CONTROL_PERIOD ≤ u32_sub env.msec s.control_start_time
  · obtain ⟨h1, h2, h3⟩ := main_loop_iteration_due cfg env s hdue
    refine ⟨rfl, h1, ⟨fun _ => hdue, fun _ => h3⟩, ⟨fun _ => hdue, fun _ => ?_⟩,
      fun _ => h2, fun hn => absurd hdue hn⟩
    obtain ⟨pre, post, hcalls, hmem⟩ := h3
    rw [hcalls]
    exact List.mem_append_right _ hmem
  · obtain ⟨h1, h2, h3⟩ := main_loop_iteration_not_due cfg env s hdue
    refine ⟨rfl, h1, ⟨fun hran => ?_, fun h => absurd h hdue⟩,
      ⟨fun hmem => absurd hmem h3, fun h => absurd h hdue⟩,
      fun h => absurd h hdue, fun _ => h2⟩
    obtain ⟨pre, post, hcalls, hmem⟩ := hran
    exact absurd (hcalls ▸ List.mem_append_right _ hmem) h3

/-- Witness for C9: the control task last ran at 4294967290. At the reading 14, which is
20 ms later across the wrap of the counter, the task runs and `control_start_time` becomes
14; at the reading 13, which is 19 ms later, it does not run and `control_start_time` stays. -/
theorem main_loop_control_task_witness :
    (CONTROL_PERIOD ≤ u32_sub (exampleEnv 14).msec exampleState.control_start_time
      ∧ (main_loop_iteration exampleConfig (exampleEnv 14) exampleState).1.control_start_time
          = 14)
    ∧ (¬ CONTROL_PERIOD ≤ u32_sub (exampleEnv 13).msec exampleState.control_start_time
      ∧ (main_loop_iteration exampleConfig (exampleEnv 13) exampleState).1.control_start_time
          = 4294967290) :=
  ⟨⟨by decide,
      (main_loop_control_task exampleConfig (exampleEnv 14) exampleState).2.2.2.2.1
        (by decide)⟩,
    ⟨by decide,
      (main_loop_control_task exampleConfig (exampleEnv 13) exampleState).2.2.2.2.2
        (by decide)⟩⟩

/-! ## Runs: no double fire, no starvation -/

theorem control_fires_iff (cfg : Config) (env : Nat → LoopEnv) (s : LoopState) (n : Nat) :
    control_fires cfg env s n ↔
      CONTROL_PERIOD ≤ u32_sub (env n).msec (main_loop_state cfg env s n).control_start_time := by
  unfold control_fires main_loop_calls
  constructor
  · intro hmem
    by_contra hdue
    exact (main_loop_iteration_not_due cfg (env n) _ hdue).2.2 hmem
  · intro hdue
    obtain ⟨_, _, pre, post, hcalls, hmem⟩ := main_loop_iteration_due cfg (env n) _ hdue
    rw [hcalls]
    exact List.mem_append_right _ hmem

theorem control_start_time_of_fires (cfg : Config) (env : Nat → LoopEnv) (s : LoopState)
    (n : Nat) (h : control_fires cfg env s n) :
    (main_loop_state cfg env s (n + 1)).control_start_time = (env n).msec := by
  rw [control_fires_iff] at h
  exact (main_loop_iteration_due cfg (env n) _ h).2.1

theorem control_start_time_of_not_fires (cfg : Config) (env : Nat → LoopEnv) (s : LoopState)
    (n : Nat) (h : ¬ control_fires cfg env s n) :
    (main_loop_state cfg env s (n + 1)).control_start_time
      = (main_loop_state cfg env s n).control_start_time := by
  rw [control_fires_iff] at h
  exact (main_loop_iteration_not_due cfg (env n) _ h).2.1

theorem u32_sub_mod_of_le (a b : Nat) (hab : b ≤ a) (hlt : a - b < 2 ^ 32) :
    u32_sub (a % 2 ^ 32) (b % 2 ^ 32) = a - b := by
  unfold u32_sub
  omega

/-- After a firing in iteration `i`, the control timer of every later iteration holds the
clock reading of some iteration from `i` on. -/
theorem control_start_time_is_reading (cfg : Config) (env : Nat → LoopEnv) (s : LoopState)
    (i : Nat) (hfire : control_fires cfg env s i) :
    ∀ j, i < j → ∃ k, i ≤ k ∧ k < j ∧
      (main_loop_state cfg env s j).control_start_time = (env k).msec := by
  intro j
  induction j with
  | zero => intro h; omega
  | succ j ih =>
    intro hij
    by_cases hj : control_fires cfg env s j
    · exact ⟨j, by omega, by omega, control_start_time_of_fires cfg env s j hj⟩
    · have hne : i ≠ j := fun e => hj (e ▸ hfire)
      obtain ⟨k, hk1, hk2, hk3⟩ := ih (by omega)
      exact ⟨k, hk1, by omega,
        (control_start_time_of_not_fires cfg env s j hj).trans hk3⟩

theorem u32_sub_add_mod (a e : Nat) (he : e < 2 ^ 32) :
    u32_sub ((a + e) % 2 ^ 32) (a % 2 ^ 32) = e := by
  unfold u32_sub
  omega

/-- Counterexample to C11 as stated: with the control timer at 4294967290 and the clock
readings 14, 40, 14 the control task fires in iterations 0 and 2, although these two
iterations read the same clock value, so that their difference modulo `2^32` is 0, below
`CONTROL_PERIOD`. -/
theorem control_task_double_fire_counterexample :
    control_fires exampleConfig (clockEnv wrappedReadings) exampleState 0
    ∧ control_fires exampleConfig (clockEnv wrappedReadings) exampleState 2
    ∧ (clockEnv wrappedReadings 2).msec = (clockEnv wrappedReadings 0).msec
    ∧ u32_sub (clockEnv wrappedReadings 2).msec (clockEnv wrappedReadings 0).msec
        < CONTROL_PERIOD := by
  simp only [control_fires_iff]
  decide

/-- C11 (amended): no double fire for a monotone clock within one turn of the counter. Let
the readings be those of a non-decreasing time `T` taken modulo `2^32`. If the control task
fires in iteration `i` and iteration `j` comes later, less than `2^32` ms after it, then the
task does not fire in iteration `j` when the difference of the two readings modulo `2^32`
is below `CONTROL_PERIOD`, in particular not when both iterations read the same value; a
firing in iteration `j` is at least `CONTROL_PERIOD` ms after the one in iteration `i`. -/
theorem control_task_no_double_fire (cfg : Config) (env : Nat → LoopEnv) (s : LoopState)
    (T : Nat → Nat) (i j : Nat)
    (hmono : Monotone T) (hread : ∀ n, (env n).msec = T n % 2 ^ 32)
    (hij : i < j) (hturn : T j - T i < 2 ^ 32)
    (hfire : control_fires cfg env s i) :
    (u32_sub (env j).msec (env i).msec < CONTROL_PERIOD → ¬ control_fires cfg env s j)
    ∧ ((env j).msec = (env i).msec → ¬ control_fires cfg env s j)
    ∧ (control_fires cfg env s j → CONTROL_PERIOD ≤ T j - T i) := by
  obtain ⟨k, hik, hkj, hcst⟩ := control_start_time_is_reading cfg env s i hfire j hij
  have h1 : T i ≤ T k := hmono hik
  have h2 : T k ≤ T j := hmono hkj.le
  have hji : u32_sub (env j).msec (env i).msec = T j - T i := by
    rw [hread, hread]
    exact u32_sub_mod_of_le _ _ (h1.trans h2) hturn
  have hjk : u32_sub (env j).msec (env k).msec = T j - T k := by
    rw [hread, hread]
    exact u32_sub_mod_of_le _ _ h2 (by omega)
  have hapart : control_fires cfg env s j → CONTROL_PERIOD ≤ T j - T i := by
    intro hj
    rw [control_fires_iff, hcst, hjk] at hj
    omega
  refine ⟨fun hwin hj => ?_, fun hsame hj => ?_, hapart⟩
  · have := hapart hj
    omega
  · have h3 := hapart hj
    have h4 : u32_sub (env j).msec (env i).msec = 0 := by
      rw [hsame]
      unfold u32_sub
      omega
    have h5 : CONTROL_PERIOD = 20 := rfl
    omega

/-- Witness for C11 (amended): the time advances by 5 ms per iteration from 4294967310, so
that the readings are 14, 19, ...; the control timer stands at 4294967290, the task fires in
iteration 0 and not in iteration 1. -/
theorem control_task_no_double_fire_witness :
    (Monotone (fun n : Nat => 4294967310 + n * 5)
      ∧ (0 : Nat) < 1 ∧ (4294967310 + 1 * 5) - (4294967310 + 0 * 5) < 2 ^ 32
      ∧ control_fires exampleConfig (clockEnv (steadyReadings 4294967310 5)) exampleState 0
      ∧ u32_sub (clockEnv (steadyReadings 4294967310 5) 1).msec
          (clockEnv (steadyReadings 4294967310 5) 0).msec < CONTROL_PERIOD)
    ∧ ¬ control_fires exampleConfig (clockEnv (steadyReadings 4294967310 5)) exampleState 1 :=
  have hmono : Monotone (fun n : Nat => 4294967310 + n * 5) :=
    fun _ _ h => Nat.add_le_add_left (Nat.mul_le_mul_right 5 h) _
  have hfire : control_fires exampleConfig (clockEnv (steadyReadings 4294967310 5))
      exampleState 0 := by
    simp only [control_fires_iff]
    decide
  ⟨⟨hmono, by decide, by decide, hfire, by decide⟩,
    (control_task_no_double_fire exampleConfig (clockEnv (steadyReadings 4294967310 5))
      exampleState (fun n : Nat => 4294967310 + n * 5) 0 1 hmono (fun _ => rfl) (by decide)
      (by decide) hfire).1 (by decide)⟩

theorem no_starvation_aux (cfg : Config) (env : Nat → LoopEnv) (s : LoopState)
    (t0 d i m : Nat) (hd1 : 1 ≤ d) (hd2 : d ≤ CONTROL_PERIOD)
    (hclock : ∀ n, (env n).msec = (t0 + n * d) % 2 ^ 32)
    (hfire : control_fires cfg env s i)
    (hm1 : m * d ≤ CONTROL_PERIOD + d - 1) (hm2 : CONTROL_PERIOD + d - 1 < (m + 1) * d) :
    (∀ k, 1 ≤ k → k < m → ¬ control_fires cfg env s (i + k))
    ∧ control_fires cfg env s (i + m)
    ∧ u32_sub (env (i + m)).msec (env i).msec = m * d
    ∧ CONTROL_PERIOD ≤ m * d
    ∧ m * d < 2 * CONTROL_PERIOD := by
  have hP : CONTROL_PERIOD = 20 := rfl
  have hbelow : ∀ k, k < m → (k + 1) * d ≤ m * d := fun k hk =>
    Nat.mul_le_mul_right d (by omega)
  have hsucc : ∀ k, (k + 1) * d = k * d + d := fun k => by ring
  have helapsed : ∀ k, k * d < 2 ^ 32 →
      u32_sub (env (i + k)).msec (env i).msec = k * d := by
    intro k hk
    rw [hclock, hclock]
    have e : t0 + (i + k) * d = (t0 + i * d) + k * d := by ring
    rw [e]
    exact u32_sub_add_mod _ _ hk
  have hquiet : ∀ k, k < m →
      (main_loop_state cfg env s (i + k + 1)).control_start_time = (env i).msec →
      1 ≤ k + 1 → k + 1 < m → ¬ control_fires cfg env s (i + k + 1) := by
    intro k hk hprev _ hk1
    have hb := hbelow (k + 1) hk1
    have hs := hsucc (k + 1)
    have he := helapsed (k + 1) (by omega)
    rw [control_fires_iff, hprev, ← Nat.add_assoc] at *
    rw [he]
    omega
  have hkeep : ∀ k, k < m →
      (main_loop_state cfg env s (i + k + 1)).control_start_time = (env i).msec := by
    intro k
    induction k with
    | zero =>
      intro _
      exact control_start_time_of_fires cfg env s i hfire
    | succ k ih =>
      intro hk
      have hprev := ih (by omega)
      have hnot := hquiet k (by omega) hprev (by omega) hk
      have hstay := control_start_time_of_not_fires cfg env s (i + k + 1) hnot
      rw [← Nat.add_assoc]
      exact hstay.trans hprev
  have hmpos : 1 ≤ m := by
    by_contra h
    have h0 : m = 0 := by omega
    rw [h0] at hm2
    omega
  have hsm := hsucc m
  refine ⟨?_, ?_, helapsed m (by omega), by omega, by omega⟩
  · intro k hk1 hkm
    obtain ⟨k0, rfl⟩ : ∃ k0, k = k0 + 1 := ⟨k - 1, by omega⟩
    rw [← Nat.add_assoc]
    exact hquiet k0 (by omega) (hkeep k0 (by omega)) hk1 hkm
  · obtain ⟨m0, rfl⟩ : ∃ m0, m = m0 + 1 := ⟨m - 1, by omega⟩
    have hprev := hkeep m0 (by omega)
    have he := helapsed (m0 + 1) (by omega)
    rw [← Nat.add_assoc] at he ⊢
    rw [control_fires_iff, hprev, he]
    omega

/-- C12: no starvation under a clock that advances by a fixed increment `d` per iteration,
`1 ≤ d ≤ CONTROL_PERIOD`. After a firing in iteration `i` the control task does not fire in
the next `m - 1` iterations and fires in iteration `i + m`, where `m` is `CONTROL_PERIOD / d`
rounded up; the time elapsed between the two firings is `d * m`, which is at least
`CONTROL_PERIOD` and less than `2 * CONTROL_PERIOD`. -/
theorem control_task_no_starvation (cfg : Config) (env : Nat → LoopEnv) (s : LoopState)
    (t0 d i : Nat) (hd1 : 1 ≤ d) (hd2 : d ≤ CONTROL_PERIOD)
    (hclock : ∀ n, (env n).msec = (t0 + n * d) % 2 ^ 32)
    (hfire : control_fires cfg env s i) :
    (∀ k, 1 ≤ k → k < (CONTROL_PERIOD + d - 1) / d → ¬ control_fires cfg env s (i + k))
    ∧ control_fires cfg env s (i + (CONTROL_PERIOD + d - 1) / d)
    ∧ u32_sub (env (i + (CONTROL_PERIOD + d - 1) / d)).msec (env i).msec
        = d * ((CONTROL_PERIOD + d - 1) / d)
    ∧ CONTROL_PERIOD ≤ d * ((CONTROL_PERIOD + d - 1) / d)
    ∧ d * ((CONTROL_PERIOD + d - 1) / d) < 2 * CONTROL_PERIOD := by
  have hm1 : (CONTROL_PERIOD + d - 1) / d * d ≤ CONTROL_PERIOD + d - 1 :=
    Nat.div_mul_le_self _ _
  have hm2 : CONTROL_PERIOD + d - 1 < ((CONTROL_PERIOD + d - 1) / d + 1) * d := by
    rw [Nat.mul_comm]
    exact Nat.lt_mul_div_succ _ (by omega)
  have h := no_starvation_aux cfg env s t0 d i _ hd1 hd2 hclock hfire hm1 hm2
  rw [Nat.mul_comm d]
  exact h

/-- Witness for C12: the clock advances by 7 ms per iteration from 4294967310 (readings 14,
21, 28, 35) and the control timer stands at 4294967290. The task fires in iteration 0, not
in iterations 1 and 2, and again in iteration 3, after 21 ms. -/
theorem control_task_no_starvation_witness :
    ((1 : Nat) ≤ 7 ∧ 7 ≤ CONTROL_PERIOD
      ∧ control_fires exampleConfig (clockEnv (steadyReadings 4294967310 7)) exampleState 0)
    ∧ ¬ control_fires exampleConfig (clockEnv (steadyReadings 4294967310 7)) exampleState 2
    ∧ control_fires exampleConfig (clockEnv (steadyReadings 4294967310 7)) exampleState 3 :=
  have hfire : control_fires exampleConfig (clockEnv (steadyReadings 4294967310 7))
      exampleState 0 := by
    simp only [control_fires_iff]
    decide
  ⟨⟨by decide, by decide, hfire⟩,
    (control_task_no_starvation exampleConfig (clockEnv (steadyReadings 4294967310 7))
      exampleState 4294967310 7 0 (by decide) (by decide) (fun _ => rfl) hfire).1 2
      (by decide) (by decide),
    (control_task_no_starvation exampleConfig (clockEnv (steadyReadings 4294967310 7))
      exampleState 4294967310 7 0 (by decide) (by decide) (fun _ => rfl) hfire).2.1⟩

/-! ## The heartbeat timer -/

theorem poll_events_heartbeat (env : LoopEnv) (s : LoopState) :
    (poll_events env s).1.heartbeat_start_time = s.heartbeat_start_time
    ∧ (poll_events env s).1.IMU_error = s.IMU_error := by
  simp only [poll_events, check_RC_events]
  split_ifs <;> simp

theorem control_block_heartbeat (cfg : Config) (env : LoopEnv) (s : LoopState) :
    (control_block cfg env s).1.heartbeat_start_time = s.heartbeat_start_time := by
  simp only [control_block]
  split_ifs <;> rfl

theorem control_task_heartbeat (cfg : Config) (env : LoopEnv) (s : LoopState) :
    (control_task cfg env s).1.heartbeat_start_time = s.heartbeat_start_time := by
  unfold control_task
  split_ifs
  · exact control_block_heartbeat cfg env s
  · rfl

theorem heartbeat_unchanged_of_not_ready (cfg : Config) (env : LoopEnv) (s : LoopState)
    (h : env.imu_ready_main = false) :
    (main_loop_iteration cfg env s).1.heartbeat_start_time = s.heartbeat_start_time := by
  have ha : ∀ x, attitude_task env x = (x, []) := by
    intro x
    simp [attitude_task, h]
  simp only [main_loop_iteration, ha]
  rw [control_task_heartbeat, (poll_events_heartbeat env s).1]

/-- C14, evaluated where the code departs from it: with the heartbeat timer at 4294967290
and the clock reading 994, that is 1000 ms later, an iteration without IMU data ready leaves
`heartbeat_start_time` as it was, while the same iteration with IMU data ready sets it to
the reading. -/
theorem heartbeat_gated_by_imu_data :
    HEARTBEAT_PERIOD ≤ u32_sub (exampleEnv 994).msec exampleState.heartbeat_start_time
    ∧ (exampleEnv 994).imu_ready_main = false
    ∧ (main_loop_iteration exampleConfig (exampleEnv 994) exampleState).1.heartbeat_start_time
        = 4294967290
    ∧ (exampleEnvReady 994).imu_ready_main = true
    ∧ (main_loop_iteration exampleConfig (exampleEnvReady 994)
        exampleState).1.heartbeat_start_time = 994 := by
  decide

/-! ## Start-up -/

theorem u32_sub_self (t : Nat) : u32_sub t t = 0 := by
  unfold u32_sub
  omega

theorem rc_wait_loop_offline (t : Nat) (online : Bool) (fuel k : Nat) :
    rc_wait_loop t t online (fun _ => false) fuel k = none := by
  induction fuel generalizing k with
  | zero => rfl
  | succ fuel ih =>
    have h : u32_sub t t < RC_timeout := by
      rw [u32_sub_self]
      decide
    simp only [rc_wait_loop, if_pos h]
    exact ih (k + 1)

/-- C15, evaluated where the code departs from it: when `RCRX_new_cmd_avail()` never
returns true, the wait for the RC receiver is still running after any number of iterations,
whatever the clock read at its start; it is never left with `RC_system_online` false, and no
message is chosen. The loop compares `cur_time - start_time`, which stays 0, with
`RC_timeout`. -/
theorem rc_wait_never_times_out (msec fuel : Nat) :
    rc_startup msec (fun _ => false) fuel = none := by
  simp only [rc_startup, rc_wait_loop_offline]

/-- C17, counterexample to the claim as stated: for the frame of four channels at 1000 the
value `hash_check` is 1000 and not 996. -/
theorem hash_check_test_frame_counterexample :
    hash_check (frame 1000 1000 1000 1000 996) = 1000
    ∧ hash_check (frame 1000 1000 1000 1000 996) ≠ 996 := by
  decide

/-- C17 (amended): for the frame of four channels at 1000, whatever its hash channel,
`hash_check` is four times `1000 >> 2`, that is four times 250, which is 1000; the frame
with the transmitted hash 996 is accepted because 1000 differs from 996 by 4, within the
tolerance of 10. -/
theorem hash_check_test_frame (cfg : Config) (hash : Int) :
    hash_check (frame 1000 1000 1000 1000 hash) = 4 * ((1000 : Int) >>> (2 : Nat))
    ∧ (1000 : Int) >>> (2 : Nat) = 250
    ∧ hash_check (frame 1000 1000 1000 1000 hash) = 1000
    ∧ |hash_check (frame 1000 1000 1000 1000 996) - 996| = 4
    ∧ forwards_pulse (set_control_output cfg (frame 1000 1000 1000 1000 996)) := by
  refine ⟨rfl, by decide, rfl, by decide, ?_⟩
  rw [forwards_pulse_iff]
  decide

end Rover

namespace Rover

/-! ## Counting IMU acquisition errors -/

theorem control_block_imu_error (cfg : Config) (env : LoopEnv) (s : LoopState) :
    (control_block cfg env s).1.IMU_error
        = (if env.imu_acq_error = true then (s.IMU_error + 1) % 2 ^ 32 else s.IMU_error)
    ∧ ((∃ n, Call.printf_IMU_error n ∈ (control_block cfg env s).2) ↔
        (env.imu_acq_error = true ∧ (s.IMU_error + 1) % 2 ^ 32 % error_report = 0))
    ∧ (∀ n, Call.printf_IMU_error n ∈ (control_block cfg env s).2 →
        n = (s.IMU_error + 1) % 2 ^ 32) := by
  have hsco : ∀ n, Call.printf_IMU_error n ∉ set_control_output cfg s.RC_channels := by
    intro n
    simp only [set_control_output]
    split <;> simp
  simp only [control_block]
  refine ⟨?_, ?_, ?_⟩
  · split_ifs <;> simp_all
  · split_ifs <;> simp_all
  · intro n
    split_ifs <;> simp_all

theorem attitude_task_imu_error (env : LoopEnv) (s : LoopState) :
    (attitude_task env s).1.IMU_error = s.IMU_error
    ∧ ∀ n, Call.printf_IMU_error n ∉ (attitude_task env s).2 := by
  simp only [attitude_task, imu_ready_block]
  split_ifs <;> simp

theorem poll_events_no_report (env : LoopEnv) (s : LoopState) (n : Nat) :
    Call.printf_IMU_error n ∉ (poll_events env s).2 := by
  simp only [poll_events, check_RC_events, check_IMU_events]
  split_ifs <;> simp

theorem main_loop_imu_error (cfg : Config) (env : LoopEnv) (s : LoopState) :
    (main_loop_iteration cfg env s).1.IMU_error
        = (if CONTROL_PERIOD ≤ u32_sub env.msec s.control_start_time
              ∧ env.imu_acq_error = true
            then (s.IMU_error + 1) % 2 ^ 32 else s.IMU_error)
    ∧ ((∃ n, Call.printf_IMU_error n ∈ (main_loop_iteration cfg env s).2) ↔
        (CONTROL_PERIOD ≤ u32_sub env.msec s.control_start_time
          ∧ env.imu_acq_error = true ∧ (s.IMU_error + 1) % 2 ^ 32 % error_report = 0))
    ∧ (∀ n, Call.printf_IMU_error n ∈ (main_loop_iteration cfg env s).2 →
        n = (s.IMU_error + 1) % 2 ^ 32) := by
  obtain ⟨p1, p2, _⟩ := poll_events_fields env s
  have p3 := (poll_events_heartbeat env s).2
  have p4 := poll_events_no_report env s
  by_cases hdue : CONTROL_PERIOD ≤ u32_sub env.msec s.control_start_time
  · have hct : control_task cfg env (poll_events env s).1
        = control_block cfg env (poll_events env s).1 := by
      unfold control_task
      rw [if_pos (by rw [p1, p2]; exact hdue)]
    obtain ⟨c1, c2, c3⟩ := control_block_imu_error cfg env (poll_events env s).1
    obtain ⟨a1, a2⟩ := attitude_task_imu_error env (control_block cfg env (poll_events env s).1).1
    rw [p3] at c1 c2 c3
    simp only [main_loop_iteration, hct, a1, c1, hdue, true_and, List.mem_append, p4, a2,
      false_or, or_false]
    exact ⟨c2, c3⟩
  · have hct : control_task cfg env (poll_events env s).1 = ((poll_events env s).1, []) := by
      unfold control_task
      rw [if_neg (by rw [p1, p2]; exact hdue)]
    obtain ⟨a1, a2⟩ := attitude_task_imu_error env (poll_events env s).1
    simp only [main_loop_iteration, hct, a1, p3, hdue, false_and, if_false, List.mem_append,
      p4, a2, List.not_mem_nil, or_self, exists_false, false_implies, implies_true, and_self]

end Rover

namespace Boat

/-! ## The control period of the boat -/

/-- C13, evaluated where the code departs from it: entered with all timers at zero, an
iteration that reads the clock at 20, when exactly `CONTROL_PERIOD` has elapsed, only polls
the events and leaves `control_start_time` at 0; the control block runs at the reading 21.
At the reading 1000, when exactly `GPS_PERIOD` and `HEARTBEAT_PERIOD` have elapsed, the GPS
and heartbeat tasks of the same loop do fire. -/
theorem control_task_skips_exact_period :
    Rover.u32_sub (exampleEnv 20 192).msec
        (loop_entry_state exampleConfig (0 : Nat) false).control_start_time = CONTROL_PERIOD
    ∧ (main_loop_iteration exampleConfig (exampleEnv 20 192)
        (loop_entry_state exampleConfig (0 : Nat) false)).2
      = [Call.check_IMU_events SCALED, Call.check_mavlink_serial_events, Call.check_RC_events,
          Call.check_GPS_events, Call.check_mavlink_mode]
    ∧ (main_loop_iteration exampleConfig (exampleEnv 20 192)
        (loop_entry_state exampleConfig (0 : Nat) false)).1.control_start_time = 0
    ∧ Call.set_control_output ∈ (main_loop_iteration exampleConfig (exampleEnv 21 192)
        (loop_entry_state exampleConfig (0 : Nat) false)).2
    ∧ (main_loop_iteration exampleConfig (exampleEnv 21 192)
        (loop_entry_state exampleConfig (0 : Nat) false)).1.control_start_time = 21
    ∧ Rover.u32_sub (exampleEnv 1000 192).msec
        (loop_entry_state exampleConfig (0 : Nat) false).gps_start_time = GPS_PERIOD
    ∧ Call.publish_GPS ∈ (main_loop_iteration exampleConfig (exampleEnv 1000 192)
        (loop_entry_state exampleConfig (0 : Nat) false)).2
    ∧ Call.publish_heartbeat ∈ (main_loop_iteration exampleConfig (exampleEnv 1000 192)
        (loop_entry_state exampleConfig (0 : Nat) false)).2 := by
  decide

/-! ## Stages of the boat loop -/

theorem state_machine_eq {τ : Type} (cfg : Config) (s : LoopState τ) :
    state_machine cfg s = (s, []) := by
  unfold state_machine
  split_ifs <;> rfl

theorem boat_control_block_fields {τ : Type} (cfg : Config) (env : LoopEnv) (s : LoopState τ) :
    (control_block cfg env s).1.trajectory_tracker = s.trajectory_tracker
    ∧ Call.pid_controller_init ∉ (control_block cfg env s).2
    ∧ (control_block cfg env s).1.IMU_error
        = (if env.imu_acq_error = true then (s.IMU_error + 1) % 2 ^ 32 else s.IMU_error)
    ∧ ((∃ n, Call.printf_IMU_error n ∈ (control_block cfg env s).2) ↔
        (cfg.USB_DEBUG = true ∧ env.imu_acq_error = true
          ∧ (s.IMU_error + 1) % 2 ^ 32 % error_report = 0)) := by
  simp only [control_block]
  refine ⟨?_, ?_, ?_, ?_⟩
  · split_ifs <;> rfl
  · split_ifs <;> simp
  · split_ifs <;> simp_all
  · split_ifs <;> simp_all

theorem control_task_fields {τ : Type} (cfg : Config) (env : LoopEnv) (s : LoopState τ) :
    (control_task cfg env s).1.trajectory_tracker = s.trajectory_tracker
    ∧ Call.pid_controller_init ∉ (control_task cfg env s).2
    ∧ (control_task cfg env s).1.IMU_error
        = (if CONTROL_PERIOD < Rover.u32_sub s.cur_time s.control_start_time
              ∧ env.imu_acq_error = true
            then (s.IMU_error + 1) % 2 ^ 32 else s.IMU_error)
    ∧ ((∃ n, Call.printf_IMU_error n ∈ (control_task cfg env s).2) ↔
        (cfg.USB_DEBUG = true ∧ CONTROL_PERIOD < Rover.u32_sub s.cur_time s.control_start_time
          ∧ env.imu_acq_error = true ∧ (s.IMU_error + 1) % 2 ^ 32 % error_report = 0)) := by
  obtain ⟨h1, h2, h3, h4⟩ := boat_control_block_fields cfg env s
  by_cases hdue : CONTROL_PERIOD < Rover.u32_sub s.cur_time s.control_start_time
  · have e : control_task cfg env s = control_block cfg env s := by
      unfold control_task
      rw [if_pos hdue]
    rw [e]
    simp only [hdue, true_and]
    exact ⟨h1, h2, h3, h4⟩
  · have e : control_task cfg env s = (s, []) := by
      unfold control_task
      rw [if_neg hdue]
    rw [e]
    simp [hdue]

theorem gps_task_fields {τ : Type} (s : LoopState τ) :
    (gps_task s).1.trajectory_tracker = s.trajectory_tracker
    ∧ (gps_task s).1.IMU_error = s.IMU_error
    ∧ Call.pid_controller_init ∉ (gps_task s).2
    ∧ ∀ n, Call.printf_IMU_error n ∉ (gps_task s).2 := by
  unfold gps_task
  split_ifs <;> simp

theorem heartbeat_task_fields {τ : Type} (s : LoopState τ) :
    (heartbeat_task s).1.trajectory_tracker = s.trajectory_tracker
    ∧ (heartbeat_task s).1.IMU_error = s.IMU_error
    ∧ Call.pid_controller_init ∉ (heartbeat_task s).2
    ∧ ∀ n, Call.printf_IMU_error n ∉ (heartbeat_task s).2 := by
  unfold heartbeat_task
  split_ifs <;> simp

theorem main_loop_iteration_tracker {τ : Type} (cfg : Config) (env : LoopEnv)
    (s : LoopState τ) :
    (main_loop_iteration cfg env s).1.trajectory_tracker = s.trajectory_tracker
    ∧ Call.pid_controller_init ∉ (main_loop_iteration cfg env s).2 := by
  simp only [main_loop_iteration, state_machine_eq]
  obtain ⟨c1, c2, _, _⟩ := control_task_fields cfg env (poll_events env s).1
  obtain ⟨g1, _, g3, _⟩ := gps_task_fields (control_task cfg env (poll_events env s).1).1
  obtain ⟨b1, _, b3, _⟩ :=
    heartbeat_task_fields (gps_task (control_task cfg env (poll_events env s).1).1).1
  refine ⟨by rw [b1, g1, c1]; rfl, ?_⟩
  simp only [List.mem_append, not_or, List.append_nil]
  exact ⟨⟨⟨by simp [poll_events], c2⟩, g3⟩, b3⟩

theorem main_loop_state_tracker {τ : Type} (cfg : Config) (env : Nat → LoopEnv)
    (s : LoopState τ) (n : Nat) :
    (main_loop_state cfg env s n).trajectory_tracker = s.trajectory_tracker := by
  induction n with
  | zero => rfl
  | succ k ih =>
    exact (main_loop_iteration_tracker cfg (env k) (main_loop_state cfg env s k)).1.trans ih

theorem main_loop_iteration_imu_error {τ : Type} (cfg : Config) (env : LoopEnv)
    (s : LoopState τ) :
    (main_loop_iteration cfg env s).1.IMU_error
        = (if CONTROL_PERIOD < Rover.u32_sub env.msec s.control_start_time
              ∧ env.imu_acq_error = true
            then (s.IMU_error + 1) % 2 ^ 32 else s.IMU_error)
    ∧ ((∃ n, Call.printf_IMU_error n ∈ (main_loop_iteration cfg env s).2) ↔
        (cfg.USB_DEBUG = true ∧ CONTROL_PERIOD < Rover.u32_sub env.msec s.control_start_time
          ∧ env.imu_acq_error = true ∧ (s.IMU_error + 1) % 2 ^ 32 % error_report = 0)) := by
  simp only [main_loop_iteration, state_machine_eq]
  obtain ⟨_, _, c3, c4⟩ := control_task_fields cfg env (poll_events env s).1
  obtain ⟨_, g2, _, g4⟩ := gps_task_fields (control_task cfg env (poll_events env s).1).1
  obtain ⟨_, b2, _, b4⟩ :=
    heartbeat_task_fields (gps_task (control_task cfg env (poll_events env s).1).1).1
  have hp : ∀ n, Call.printf_IMU_error n ∉ (poll_events env s).2 := by
    intro n
    simp [poll_events]
  refine ⟨by rw [b2, g2, c3]; rfl, ?_⟩
  simp only [List.mem_append, List.append_nil, hp, g4, b4, false_or, or_false]
  rw [c4]
  rfl

/-! ## Mode changes -/

/-- C18, counterexample to the claim as stated: the loop is entered with both mode
variables at `MAV_MODE_MANUAL_ARMED` (192) and the controller state 7; in an iteration in
which `check_mavlink_mode()` returns `MAV_MODE_AUTO_ARMED` (220) the only calls are the five
event checks, the controller state is still 7, and `last_mode` is still 192. -/
theorem mode_change_counterexample :
    (loop_entry_state exampleConfig (7 : Nat) false).last_mode
        = exampleConfig.MAV_MODE_MANUAL_ARMED
    ∧ (exampleEnv 5 220).mode = exampleConfig.MAV_MODE_AUTO_ARMED
    ∧ (main_loop_iteration exampleConfig (exampleEnv 5 220)
        (loop_entry_state exampleConfig (7 : Nat) false)).1.current_mode = 220
    ∧ (main_loop_iteration exampleConfig (exampleEnv 5 220)
        (loop_entry_state exampleConfig (7 : Nat) false)).1.last_mode = 192
    ∧ (main_loop_iteration exampleConfig (exampleEnv 5 220)
        (loop_entry_state exampleConfig (7 : Nat) false)).1.trajectory_tracker = 7
    ∧ (main_loop_iteration exampleConfig (exampleEnv 5 220)
        (loop_entry_state exampleConfig (7 : Nat) false)).2
      = [Call.check_IMU_events SCALED, Call.check_mavlink_serial_events, Call.check_RC_events,
          Call.check_GPS_events, Call.check_mavlink_mode] := by
  decide

/-- C18 (amended): an iteration of the boat loop reads the mode from `check_mavlink_mode()`
into `current_mode` and runs no transition-entry step. Whatever mode is read, a change from
`MAV_MODE_MANUAL_ARMED` to `MAV_MODE_AUTO_ARMED` included, the iteration leaves the
controller state `trajectory_tracker` untouched and does not call `pid_controller_init`; at
the start of every iteration the controller state is the one with which the loop was
entered. -/
theorem mode_change_leaves_controller {τ : Type} (cfg : Config) (env : Nat → LoopEnv)
    (s : LoopState τ) (n : Nat) :
    (main_loop_iteration cfg (env n) (main_loop_state cfg env s n)).1.current_mode
        = (env n).mode
    ∧ (main_loop_iteration cfg (env n) (main_loop_state cfg env s n)).1.trajectory_tracker
        = (main_loop_state cfg env s n).trajectory_tracker
    ∧ Call.pid_controller_init
        ∉ (main_loop_iteration cfg (env n) (main_loop_state cfg env s n)).2
    ∧ (main_loop_state cfg env s n).trajectory_tracker = s.trajectory_tracker := by
  obtain ⟨h1, h2⟩ := main_loop_iteration_tracker cfg (env n) (main_loop_state cfg env s n)
  refine ⟨?_, h1, h2, ?_⟩
  · simp only [main_loop_iteration, state_machine_eq, control_task, control_block,
      gps_task, heartbeat_task, poll_events]
    split_ifs <;> rfl
  · exact main_loop_state_tracker cfg env s n

end Boat

namespace Boat

/-! ## Counting IMU acquisition errors -/

/-- C19, counterexample to the claim as stated: in the boat loop built without `USB_DEBUG`,
a control cycle in which `IMU_start_data_acq()` returns `ERROR` takes the error count from
49 to 50, a multiple of `error_report`, and no error report is among the calls. -/
theorem imu_error_report_counterexample :
    exampleConfig.USB_DEBUG = false
    ∧ CONTROL_PERIOD < Rover.u32_sub (failingEnv 21 192).msec
        ({ loop_entry_state exampleConfig (0 : Nat) false with
            IMU_error := 49 }).control_start_time
    ∧ (failingEnv 21 192).imu_acq_error = true
    ∧ (main_loop_iteration exampleConfig (failingEnv 21 192)
        { loop_entry_state exampleConfig (0 : Nat) false with IMU_error := 49 }).1.IMU_error
      = 50
    ∧ 50 % error_report = 0
    ∧ (main_loop_iteration exampleConfig (failingEnv 21 192)
        { loop_entry_state exampleConfig (0 : Nat) false with IMU_error := 49 }).2
      = [Call.check_IMU_events SCALED, Call.check_mavlink_serial_events, Call.check_RC_events,
          Call.check_GPS_events, Call.check_mavlink_mode, Call.set_control_output,
          Call.IMU_start_data_acq, Call.publish_RC_signals_raw,
          Call.publish_IMU_data SCALED] := by
  decide

/-- C19 (amended): runtime IMU acquisition failures are counted and never halt the loop. In
an iteration of the rover loop `IMU_error` becomes `IMU_error + 1` modulo `2^32` when the
control block runs and `IMU_start_data_acq()` returns `ERROR`, and is unchanged otherwise;
an error report is printed exactly when, in addition, the incremented count is a multiple
of `error_report`, which is 50, and it prints the incremented count. In the boat loop the
count changes in the same way, with the control block running when more than
`CONTROL_PERIOD` has elapsed, and the report is printed exactly when, in addition, the
program is built with `USB_DEBUG`. Every iteration of either loop ends in a state, from
which the next iteration starts. -/
theorem imu_error_counted {τ : Type} (rcfg : Rover.Config) (renv : Rover.LoopEnv)
    (rs : Rover.LoopState) (bcfg : Config) (benv : LoopEnv) (bs : LoopState τ) :
    ((Rover.main_loop_iteration rcfg renv rs).1.IMU_error
        = (if Rover.CONTROL_PERIOD ≤ Rover.u32_sub renv.msec rs.control_start_time
              ∧ renv.imu_acq_error = true
            then (rs.IMU_error + 1) % 2 ^ 32 else rs.IMU_error))
    ∧ ((∃ n, Rover.Call.printf_IMU_error n ∈ (Rover.main_loop_iteration rcfg renv rs).2) ↔
        (Rover.CONTROL_PERIOD ≤ Rover.u32_sub renv.msec rs.control_start_time
          ∧ renv.imu_acq_error = true
          ∧ (rs.IMU_error + 1) % 2 ^ 32 % Rover.error_report = 0))
    ∧ (∀ n, Rover.Call.printf_IMU_error n ∈ (Rover.main_loop_iteration rcfg renv rs).2 →
        n = (rs.IMU_error + 1) % 2 ^ 32)
    ∧ ((main_loop_iteration bcfg benv bs).1.IMU_error
        = (if CONTROL_PERIOD < Rover.u32_sub benv.msec bs.control_start_time
              ∧ benv.imu_acq_error = true
            then (bs.IMU_error + 1) % 2 ^ 32 else bs.IMU_error))
    ∧ ((∃ n, Call.printf_IMU_error n ∈ (main_loop_iteration bcfg benv bs).2) ↔
        (bcfg.USB_DEBUG = true
          ∧ CONTROL_PERIOD < Rover.u32_sub benv.msec bs.control_start_time
          ∧ benv.imu_acq_error = true
          ∧ (bs.IMU_error + 1) % 2 ^ 32 % error_report = 0))
    ∧ Rover.error_report = 50 ∧ error_report = 50
    ∧ (∃ rs1 rcalls, Rover.main_loop_iteration rcfg renv rs = (rs1, rcalls))
    ∧ (∃ bs1 bcalls, main_loop_iteration bcfg benv bs = (bs1, bcalls)) := by
  obtain ⟨r1, r2, r3⟩ := Rover.main_loop_imu_error rcfg renv rs
  obtain ⟨b1, b2⟩ := main_loop_iteration_imu_error bcfg benv bs
  exact ⟨r1, r2, r3, b1, b2, rfl, rfl, ⟨_, _, rfl⟩, ⟨_, _, rfl⟩⟩

/-- Witness for C19 (amended): in the rover loop with the error count at 49, a control
cycle in which `IMU_start_data_acq()` returns `ERROR` prints the report with the count 50;
in the boat loop built without `USB_DEBUG` the same cycle counts to 50 and prints nothing. -/
theorem imu_error_counted_witness :
    Rover.Call.printf_IMU_error 50 ∈ (Rover.main_loop_iteration Rover.exampleConfig
        { Rover.exampleEnv 14 with imu_acq_error := true }
        { Rover.exampleState with IMU_error := 49 }).2
    ∧ (main_loop_iteration exampleConfig (failingEnv 21 192)
        { loop_entry_state exampleConfig (0 : Nat) false with IMU_error := 49 }).1.IMU_error
      = 50
    ∧ ¬ ∃ n, Call.printf_IMU_error n ∈ (main_loop_iteration exampleConfig (failingEnv 21 192)
        { loop_entry_state exampleConfig (0 : Nat) false with IMU_error := 49 }).2 := by
  have h := imu_error_counted Rover.exampleConfig
    { Rover.exampleEnv 14 with imu_acq_error := true }
    { Rover.exampleState with IMU_error := 49 }
    exampleConfig (failingEnv 21 192)
    { loop_entry_state exampleConfig (0 : Nat) false with IMU_error := 49 }
  obtain ⟨_, r2, r3, b1, b2, _⟩ := h
  refine ⟨?_, ?_, ?_⟩
  · obtain ⟨n, hn⟩ := r2.mpr ⟨by decide, by decide, by decide⟩
    have e := r3 n hn
    have e50 : n = 50 := e.trans (by decide)
    rw [e50] at hn
    exact hn
  · rw [b1]
    decide
  · intro hex
    have := (b2.mp hex).1
    exact absurd this (by decide)

end Boat

namespace RangeAtAngle

/-! ## Leaving the loop of `range_at_angle_mode` -/

theorem limits_of_representable (angle : Int)
    (hlo : -32768 ≤ angle - 500) (hhi : angle + 500 ≤ 32767) :
    lower_limit angle = angle - 500 ∧ upper_limit angle = angle + 500 := by
  unfold lower_limit upper_limit to_int16 TOLERANCE
  omega

theorem outside_limits_eq_not_inside (lower upper a : Int) :
    outside_limits lower upper a = !inside_limits lower upper a := by
  unfold outside_limits inside_limits
  by_cases h1 : a ≤ lower <;> by_cases h2 : a ≥ upper <;>
    simp [h1, h2, not_le.mp, not_lt.mpr, Int.not_lt.mpr]

/-- The LiDAR branch prints an intermediate reading exactly when its period has elapsed and
the angle read is on or outside a limit, that is, when the angle read fails the exit
condition. -/
theorem lidar_branch_prints_iff (lower upper : Int) (ia : Nat) (e : LoopEnv) (s : LoopState) :
    (∃ a r, Call.printf_angle a r ∈ (lidar_branch lower upper ia e s).2) ↔
      (LIDAR_PERIOD ≤ Rover.u32_sub e.time_us s.lidar_start_time
        ∧ inside_limits lower upper e.lidar_angle = false) := by
  have hout := outside_limits_eq_not_inside lower upper e.lidar_angle
  simp only [lidar_branch]
  by_cases hdue : LIDAR_PERIOD ≤ Rover.u32_sub e.time_us s.lidar_start_time
  · cases hin : inside_limits lower upper e.lidar_angle <;> simp [hdue, hout, hin]
  · simp [hdue]

/-- An iteration takes the `break` exactly when the value of `angle_from_encoder` it tests
is strictly between the limits, whatever assigned that value. -/
theorem loop_iteration_exit (lower upper : Int) (ia : Nat) (e : LoopEnv) (s : LoopState) :
    (∀ a calls, loop_iteration lower upper ia e s = Outcome.returned a calls →
      a = tested_angle lower upper ia e s ∧ lower < a ∧ a < upper)
    ∧ (lower < tested_angle lower upper ia e s ∧ tested_angle lower upper ia e s < upper →
      ∃ calls, loop_iteration lower upper ia e s
        = Outcome.returned (tested_angle lower upper ia e s) calls)
    ∧ (¬ (lower < tested_angle lower upper ia e s ∧ tested_angle lower upper ia e s < upper) →
      ∃ s1 calls, loop_iteration lower upper ia e s = Outcome.running s1 calls) := by
  have hin : ∀ a, inside_limits lower upper a = true ↔ (lower < a ∧ a < upper) := by
    intro a
    simp [inside_limits]
  unfold tested_angle
  simp only [loop_iteration]
  by_cases h : inside_limits lower upper
      (encoder_branch ia e (lidar_branch lower upper ia e s).1).1.angle_from_encoder = true
  · simp only [if_pos h]
    refine ⟨?_, fun _ => ⟨_, rfl⟩, fun hn => absurd ((hin _).mp h) hn⟩
    intro a calls heq
    simp only [Outcome.returned.injEq] at heq
    rw [← heq.1]
    exact ⟨rfl, (hin _).mp h⟩
  · simp only [if_neg h]
    refine ⟨?_, fun hb => absurd ((hin _).mpr hb) h, fun _ => ⟨_, _, rfl⟩⟩
    intro a calls heq
    simp at heq

/-- When an iteration starts before either period has elapsed, no reading is taken and the
exit condition is tested on the value that `angle_from_encoder` already holds. -/
theorem tested_angle_of_early (lower upper : Int) (ia : Nat) (e : LoopEnv) (s : LoopState)
    (hl : Rover.u32_sub e.time_us s.lidar_start_time < LIDAR_PERIOD)
    (he : Rover.u32_sub e.time_us s.encoder_start_time < ENCODER_PERIOD) :
    tested_angle lower upper ia e s = s.angle_from_encoder := by
  have hl1 : ¬ LIDAR_PERIOD ≤ Rover.u32_sub e.time_us s.lidar_start_time := by omega
  have he1 : ¬ ENCODER_PERIOD ≤ Rover.u32_sub e.time_us s.encoder_start_time := by omega
  simp only [tested_angle, lidar_branch, if_neg hl1, encoder_branch, if_neg he1]

/-- C20, evaluated where the code departs from it: `range_at_angle_mode` is called for the
angle 1000, with limits 500 and 1500, while the servo stands at 9000 and the microsecond
timer reads 500, so that in the first iteration neither the LiDAR period nor the encoder
period has elapsed. The storage of the uninitialised `angle_from_encoder` holds 700. The
function returns in iteration 0, having tested 700: the only calls are the servo command
and the final `get_angle_and_range` with its print of the angle 9000; no encoder or LiDAR
reading precedes the test. With the storage holding 0 the same call goes on, takes readings
of 9000 and is still running after 5 iterations. -/
theorem range_at_angle_returns_without_reading :
    (Rover.u32_sub (earlyEnv 0).time_us 0 < ENCODER_PERIOD
      ∧ Rover.u32_sub (earlyEnv 0).time_us 0 < LIDAR_PERIOD)
    ∧ range_at_angle_mode 1000 0 700 earlyEnv 5
      = Result.returned 0 700 [Call.MG90S_servo_set_angle 1000, Call.get_angle_and_range 0,
          Call.printf_final 9000 120]
    ∧ ¬ (lower_limit 1000 < (earlyEnv 0).final_angle
          ∧ (earlyEnv 0).final_angle < upper_limit 1000)
    ∧ range_at_angle_mode 1000 0 0 earlyEnv 5 = Result.running := by
  decide

end RangeAtAngle

namespace Rover

/-! ## The buffer before any RC frame -/

theorem shiftRight_two_gt_ten_iff (x : Int) : x >>> (2 : Nat) > 10 ↔ x ≥ 44 := by
  have e : x >>> (2 : Nat) = x / 4 := by
    rw [Int.shiftRight_eq_div_pow]
    rfl
  rw [e]
  omega

theorem hash_check_initial (cfg : Config) :
    hash_check (RC_channels_initial cfg) = cfg.RC_RX_MID_COUNTS >>> (2 : Nat) := by
  have z : (0 : Int) >>> (2 : Nat) = 0 := by decide
  simp only [hash_check, RC_channels_initial, THR, AIL, ELE, RUD]
  simp [z]

theorem poll_events_no_new_cmd (env : LoopEnv) (s : LoopState)
    (h : env.rc_new_cmd_avail = false) :
    (poll_events env s).1.RC_channels = s.RC_channels
    ∧ ¬ forwards_pulse (poll_events env s).2 := by
  have hrc : check_RC_events env s = (s, []) := by
    simp [check_RC_events, h]
  simp only [poll_events, hrc, check_IMU_events, forwards_pulse]
  split_ifs <;> simp

theorem control_task_pulses (cfg : Config) (env : LoopEnv) (s : LoopState)
    (h : forwards_pulse (control_task cfg env s).2) :
    forwards_pulse (set_control_output cfg s.RC_channels) := by
  obtain ⟨pulse, motor, hmem⟩ := h
  refine ⟨pulse, motor, ?_⟩
  simp only [control_task, control_block] at hmem
  split_ifs at hmem <;> simp_all

theorem attitude_task_no_pulse (env : LoopEnv) (s : LoopState) :
    ¬ forwards_pulse (attitude_task env s).2 := by
  simp only [attitude_task, imu_ready_block, forwards_pulse]
  split_ifs <;> simp

theorem main_loop_iteration_pulses (cfg : Config) (env : LoopEnv) (s : LoopState)
    (hno : env.rc_new_cmd_avail = false)
    (h : forwards_pulse (main_loop_iteration cfg env s).2) :
    forwards_pulse (set_control_output cfg s.RC_channels) := by
  obtain ⟨p1, p2⟩ := poll_events_no_new_cmd env s hno
  obtain ⟨pulse, motor, hmem⟩ := h
  simp only [main_loop_iteration, List.mem_append] at hmem
  rcases hmem with (hm | hm) | hm
  · exact absurd ⟨pulse, motor, hm⟩ p2
  · rw [← p1]
    exact control_task_pulses cfg env _ ⟨pulse, motor, hm⟩
  · exact absurd ⟨pulse, motor, hm⟩ (attitude_task_no_pulse env _)

/-- C21: the buffer as statically initialised holds `RC_RX_MID_COUNTS` in channel 0 (`THR`)
and 0 in every other channel, the hash channel included, so `hash_check` is
`RC_RX_MID_COUNTS >> 2` against the hash 0. When `RC_RX_MID_COUNTS >> 2 > 10`, which is the
same as `RC_RX_MID_COUNTS ≥ 44`, the other channels do not hold `RC_RX_MID_COUNTS`,
`set_control_output` rejects the buffer and forwards no pulse, the actuator state is left as
it was, and a loop iteration that finds this buffer and no new RC command forwards no pulse
either. -/
theorem initial_buffer_rejected (cfg : Config) (env : LoopEnv) (s : LoopState)
    (hmid : cfg.RC_RX_MID_COUNTS >>> (2 : Nat) > 10) :
    RC_channels_initial cfg THR = cfg.RC_RX_MID_COUNTS
    ∧ (∀ i, i ≠ THR → RC_channels_initial cfg i = 0
        ∧ RC_channels_initial cfg i ≠ cfg.RC_RX_MID_COUNTS)
    ∧ RC_channels_initial cfg HASH = 0
    ∧ hash_check (RC_channels_initial cfg) = cfg.RC_RX_MID_COUNTS >>> (2 : Nat)
    ∧ (cfg.RC_RX_MID_COUNTS >>> (2 : Nat) > 10 ↔ cfg.RC_RX_MID_COUNTS ≥ 44)
    ∧ ¬ forwards_pulse (set_control_output cfg (RC_channels_initial cfg))
    ∧ set_control_output cfg (RC_channels_initial cfg)
        = [Call.printf_RC [cfg.RC_RX_MID_COUNTS, 0, 0, 0, 0,
            cfg.RC_RX_MID_COUNTS >>> (2 : Nat), 0]]
    ∧ (∀ (σ : Type) (driver : Int → motors → σ → σ) (st : σ),
        run_actuators driver (set_control_output cfg (RC_channels_initial cfg)) st = st)
    ∧ (s.RC_channels = RC_channels_initial cfg → env.rc_new_cmd_avail = false →
        ¬ forwards_pulse (main_loop_iteration cfg env s).2) := by
  have h44 : cfg.RC_RX_MID_COUNTS ≥ 44 := (shiftRight_two_gt_ten_iff _).mp hmid
  have hhash : RC_channels_initial cfg HASH = 0 := rfl
  have hfail : ¬ |hash_check (RC_channels_initial cfg) - RC_channels_initial cfg HASH| ≤ 10 := by
    rw [hash_check_initial, hhash, sub_zero, abs_of_pos (by omega)]
    omega
  have hrej : ¬ forwards_pulse (set_control_output cfg (RC_channels_initial cfg)) := by
    rw [forwards_pulse_iff]
    exact hfail
  have hcalls := set_control_output_of_not_intol cfg (RC_channels_initial cfg) hfail
  rw [hash_check_initial] at hcalls
  refine ⟨rfl, ?_, hhash, hash_check_initial cfg, shiftRight_two_gt_ten_iff _, hrej, hcalls,
    ?_, ?_⟩
  · intro i hi
    have hi0 : ¬ i = 0 := hi
    have hz : RC_channels_initial cfg i = 0 := by
      simp only [RC_channels_initial, if_neg hi0]
    exact ⟨hz, by rw [hz]; omega⟩
  · intro σ driver st
    rw [hcalls]
    rfl
  · intro hbuf hno hf
    have := main_loop_iteration_pulses cfg env s hno hf
    rw [hbuf] at this
    exact hrej this

/-- Witness for C21: with the mid count 992, whose shift by two bits is 248, the initial
buffer is rejected with the diagnostic print of 992, 0, 0, 0, hash 0 and check value 248. -/
theorem initial_buffer_rejected_witness :
    exampleConfig.RC_RX_MID_COUNTS >>> (2 : Nat) > 10
    ∧ ¬ forwards_pulse (set_control_output exampleConfig (RC_channels_initial exampleConfig))
    ∧ set_control_output exampleConfig (RC_channels_initial exampleConfig)
        = [Call.printf_RC [992, 0, 0, 0, 0, 248, 0]] :=
  ⟨by decide,
    (initial_buffer_rejected exampleConfig (exampleEnv 14) exampleState (by decide)).2.2.2.2.2.1,
    (initial_buffer_rejected exampleConfig (exampleEnv 14) exampleState
      (by decide)).2.2.2.2.2.2.1⟩

end Rover
